import Mathlib

/-!
Verification of the VIVO 1.6 ingest scripts (people, courses, grants).

The Python sources are embedded shallowly: dictionaries become association
lists, RDF output becomes lists of statements, identifier allocation from
vivotools get_vivo_uri becomes an explicit counter that is threaded through
the functions, and the current wall-clock time is an explicit parameter.
Functions from the external vivotools library (imported as vt in the
sources) are not part of this repository; where a claim depends on one,
the function is modelled from the specification and marked as such in its
doc comment.
-/

namespace Vivo

/-- An element of an RDF statement batch.  A triple is one
subject-predicate-object assertion.  An entity element models the vivotools
remove_uri operation: removal of an entity identifier together with all of
its immediately owned statements (a whole sub-entity retracted in full). -/
inductive Stmt where
  | triple (s p o : String)
  | entity (uri : String)
deriving DecidableEq, Repr

/-- Association-list model of a Python dictionary from strings to strings.
Insertion conses at the front and lookup takes the first match, so a later
insertion of an existing key overwrites the earlier one, matching Python
dict assignment (last write wins). -/
abbrev Dict := List (String × String)

/-- Python dictionary lookup d[k]: first match in the association list. -/
def lookupD : Dict → String → Option String
  | [], _ => none
  | (k', v) :: rest, k => if k = k' then some v else lookupD rest k

/-- Python dictionary assignment d[k] = v under the cons-front model. -/
def insertD (d : Dict) (k v : String) : Dict := (k, v) :: d

/-- Python membership test k in d. -/
def memD (d : Dict) (k : String) : Bool := (lookupD d k).isSome

/-- Identifier allocation: vivotools get_vivo_uri modelled as a counter. -/
def newUri (n : Nat) : String :=
  "http://vivo.ufl.edu/individual/n" ++ toString n

/-- Modelled from the spec: vivotools update_data_property (the Field
Reconciler for scalar properties), absent from src.  Given already
normalized existing and source values, it yields NoOp when the values are
equal (including both null), one addition statement when the existing
value is null and the source value is present, one retraction statement
when the existing value is present and the source value is null, and a
retraction of the old value together with an addition of the new value
when both are present and different. -/
def update_data_property (uri pred : String)
    (vivo_value source_value : Option String) : List Stmt × List Stmt :=
  match vivo_value, source_value with
  | none, none => ([], [])
  | none, some s => ([Stmt.triple uri pred s], [])
  | some v, none => ([], [Stmt.triple uri pred v])
  | some v, some s =>
      if v = s then ([], [])
      else ([Stmt.triple uri pred s], [Stmt.triple uri pred v])

/-- Modelled from the spec: vivotools update_resource_property (the Field
Reconciler for reference-valued properties), absent from src.  Reference
valued properties are reconciled identically to scalar ones; the caller
resolves the reference to an entity identifier before calling. -/
def update_resource_property (uri pred : String)
    (vivo_value source_value : Option String) : List Stmt × List Stmt :=
  match vivo_value, source_value with
  | none, none => ([], [])
  | none, some s => ([Stmt.triple uri pred s], [])
  | some v, none => ([], [Stmt.triple uri pred v])
  | some v, some s =>
      if v = s then ([], [])
      else ([Stmt.triple uri pred s], [Stmt.triple uri pred v])

/-- The normalization applied on each side in update_grant and
update_contact before calling the Field Reconciler: a key that is absent
from the record dictionary, or whose value is the empty string, becomes
null (grant_ingest.py lines 707 to 719, person-ingest.py lines 1145 to
1157). -/
def normValue (d : Dict) (k : String) : Option String :=
  match lookupD d k with
  | some v => if v = "" then none else some v
  | none => none

/-- Body of the property loop in update_grant (grant_ingest.py lines 707
to 723): normalize the VIVO value and the source value, then call the
Field Reconciler. -/
def grantPropStep (grant_uri : String) (grant grant_data : Dict)
    (property pred : String) : List Stmt × List Stmt :=
  let vivo_value :=
    match lookupD grant property with
    | some v => if v = "" then none else some v
    | none => none
  let source_value :=
    match lookupD grant_data property with
    | some v => if v = "" then none else some v
    | none => none
  update_data_property grant_uri pred vivo_value source_value

/-- Body of the resource loop in update_grant (grant_ingest.py lines 727
to 743). -/
def grantResourceStep (grant_uri : String) (grant grant_data : Dict)
    (resource pred : String) : List Stmt × List Stmt :=
  let vivo_value :=
    match lookupD grant resource with
    | some v => if v = "" then none else some v
    | none => none
  let source_value :=
    match lookupD grant_data resource with
    | some v => if v = "" then none else some v
    | none => none
  update_resource_property grant_uri pred vivo_value source_value

/-- Body of the property loop in update_contact (person-ingest.py lines
1145 to 1161): identical normalize-then-reconcile shape. -/
def contactPropStep (person_uri : String) (person contact_data : Dict)
    (property pred : String) : List Stmt × List Stmt :=
  let vivo_value :=
    match lookupD person property with
    | some v => if v = "" then none else some v
    | none => none
  let source_value :=
    match lookupD contact_data property with
    | some v => if v = "" then none else some v
    | none => none
  update_data_property person_uri pred vivo_value source_value

/-- Specification-side normalization: empty string and absent are both
treated as null before comparison. -/
def specNormalize (v : Option String) : Option String :=
  match v with
  | some s => if s = "" then none else some s
  | none => none

/-- Specification-side outcome table for one property: the statements the
Field Reconciler must emit for a pair of normalized values. -/
def specOutcome (uri pred : String) (existing source : Option String) :
    List Stmt × List Stmt :=
  match existing, source with
  | none, none => ([], [])
  | none, some b => ([Stmt.triple uri pred b], [])
  | some a, none => ([], [Stmt.triple uri pred a])
  | some a, some b =>
      if a = b then ([], [])
      else ([Stmt.triple uri pred b], [Stmt.triple uri pred a])

/-- C1: for every property and every pair of (existing graph value, source
value), the per-property step of update_grant and of update_contact first
normalizes the empty string and an absent key to null on both sides and
then emits exactly the five-case table: no statements when the normalized
values are equal (including both null), one addition statement when the
existing value is null and the source value is present, one retraction
statement when the existing value is present and the source value is null,
and a retraction of the old value together with an addition of the new
value when both are present and different. -/
theorem fieldReconcilerTable (uri pred property : String)
    (graph source : Dict) :
    grantPropStep uri graph source property pred =
      specOutcome uri pred (specNormalize (lookupD graph property))
        (specNormalize (lookupD source property)) ∧
    grantResourceStep uri graph source property pred =
      specOutcome uri pred (specNormalize (lookupD graph property))
        (specNormalize (lookupD source property)) ∧
    contactPropStep uri graph source property pred =
      specOutcome uri pred (specNormalize (lookupD graph property))
        (specNormalize (lookupD source property)) := by
  refine ⟨?_, ?_, ?_⟩
  · unfold grantPropStep specOutcome specNormalize update_data_property
    cases lookupD graph property <;> cases lookupD source property <;> simp
  · unfold grantResourceStep specOutcome specNormalize
      update_resource_property
    cases lookupD graph property <;> cases lookupD source property <;> simp
  · unfold contactPropStep specOutcome specNormalize update_data_property
    cases lookupD graph property <;> cases lookupD source property <;> simp

/-! ## update_grant: property tables, roles, and the grant driver loop -/

/-- Static reconciliation table of scalar grant properties
(grant_ingest.py lines 688 to 696), listed in the sorted key order the
code iterates (sorted(properties.keys())). -/
def grantProperties : List (String × String) :=
  [("date_harvested", "ufVivo:dateHarvested"),
   ("dsr_number", "ufVivo:dsrNumber"),
   ("grant_direct_costs", "vivo:grantDirectCosts"),
   ("harvested_by", "ufVivo:harvestedBy"),
   ("local_award_id", "vivo:localAwardId"),
   ("pcn", "ufVivo:psContractNumber"),
   ("sponsor_award_id", "vivo:sponsorAwardId"),
   ("title", "rdfs:label"),
   ("total_award_amount", "vivo:totalAwardAmount")]

/-- Static reconciliation table of reference-valued grant properties
(grant_ingest.py lines 697 to 699), in sorted key order. -/
def grantResources : List (String × String) :=
  [("administered_by_uri", "vivo:administeredBy"),
   ("dti_uri", "vivo:dateTimeInterval"),
   ("sponsor_uri", "vivo:grantAwardedBy")]

/-- Static reconciliation table of contact properties in update_contact
(person-ingest.py lines 1130 to 1140). -/
def contactProperties : List (String × String) :=
  [("first_name", "foaf:firstName"),
   ("last_name", "foaf:lastName"),
   ("middle_name", "vivo:middleName"),
   ("name_prefix", "bibo:prefixName"),
   ("name_suffix", "bibo:suffixName"),
   ("display_name", "rdfs:label"),
   ("gatorlink", "ufVivo:gatorlink"),
   ("preferred_title", "vivo:preferredTitle"),
   ("primary_email", "vivo:primaryEmail"),
   ("primary_phone_number", "vivo:primaryPhoneNumber"),
   ("fax_number", "vivo:faxNumber")]

/-- Snapshot of a grant as returned by the vivotools get_grant query:
scalar and reference property values, the investigator URIs of the three
role kinds, and the map from investigator URI to the URI of the connecting
role entity. -/
structure GrantVivo where
  props : Dict
  pi_uris : List String
  coi_uris : List String
  inv_uris : List String
  role_uris : Dict
deriving DecidableEq, Repr

/-- Authoritative grant data assembled by make_dsp_dictionary: property
values plus resolved investigator URIs for the three role kinds. -/
structure GrantData where
  props : Dict
  pi_uris : List String
  coi_uris : List String
  inv_uris : List String
deriving DecidableEq, Repr

/-- Python dict key insertion: append the key if it is not present yet. -/
def insertKey (ks : List String) (k : String) : List String :=
  if k ∈ ks then ks else ks ++ [k]

/-- Key list of a Python dict built by inserting all elements of src and
then all elements of graph, in iteration (insertion) order. -/
def caseKeys (src graph : List String) : List String :=
  (src ++ graph).foldl insertKey []

/-- One row of the investigator_types table of update_grant
(grant_ingest.py lines 747 to 760). -/
structure ItypeSpec where
  role_type : String
  role_property : String
  person_role : String
deriving DecidableEq, Repr

def piSpec : ItypeSpec :=
  ⟨"http://vivoweb.org/ontology/core#PrincipalInvestigatorRole",
   "core:principalInvestigatorRoleOf", "core:hasPrincipalInvestigatorRole"⟩

def coiSpec : ItypeSpec :=
  ⟨"http://vivoweb.org/ontology/core#CoPrincipalInvestigatorRole",
   "core:co-PrincipalInvestigatorRoleOf",
   "core:hasCo-PrincipalInvestigatorRole"⟩

def invSpec : ItypeSpec :=
  ⟨"http://vivoweb.org/ontology/core#InvestigatorRole",
   "core:investigatorRoleOf", "core:hasInvestigatorRole"⟩

/-- The complete statement set of a freshly created investigator role
(grant_ingest.py lines 789 to 829).  Each entry is the single addition
produced by one update_resource_property(x, pred, None, value) call. -/
def newRoleStmts (grant_uri role_uri uri dti_uri : String)
    (it : ItypeSpec) : List Stmt :=
  [Stmt.triple role_uri "rdf:type" "http://www.w3.org/2002/07/owl#Thing",
   Stmt.triple role_uri "rdf:type" "http://vivoweb.org/ontology/core#Role",
   Stmt.triple role_uri "rdf:type"
     "http://vivoweb.org/ontology/core#ResearcherRole",
   Stmt.triple role_uri "rdf:type"
     "http://vivoweb.org/ontology/core#InvestigatorRole",
   Stmt.triple role_uri "rdf:type" it.role_type,
   Stmt.triple role_uri it.role_property uri,
   Stmt.triple role_uri "vivo:dateTimeInterval" dti_uri,
   Stmt.triple grant_uri "vivo:contributingRole" role_uri,
   Stmt.triple role_uri "vivo:roleContributesTo" grant_uri,
   Stmt.triple uri it.person_role role_uri]

/-- Processing of one investigator URI in the role loop of update_grant
(grant_ingest.py lines 767 to 829).  The case value of a URI is its count
in the source list plus twice its count in the VIVO list, exactly the
uri_case dictionary the code builds; case 3 is a no-op, case 2 removes the
connecting role in full (vivotools remove_uri, modelled from the spec as a
whole-entity retraction), and any other case creates a complete new role
with a freshly allocated URI. -/
def roleStep (grant_uri dti : String) (it : ItypeSpec)
    (src graph : List String) (role_uris : Dict)
    (acc : List Stmt × List Stmt × Nat) (uri : String) :
    List Stmt × List Stmt × Nat :=
  let c := src.count uri + 2 * graph.count uri
  if c = 3 then acc
  else if c = 2 then
    (acc.1, acc.2.1 ++ [Stmt.entity ((lookupD role_uris uri).getD "")],
     acc.2.2)
  else
    let role_uri := newUri acc.2.2
    (acc.1 ++ newRoleStmts grant_uri role_uri uri dti it, acc.2.1,
     acc.2.2 + 1)

/-- Role reconciliation for one investigator type: iterate the keys of the
uri_case dictionary in insertion order (source URIs first, then VIVO-only
URIs). -/
def updateRolesFor (grant_uri dti : String) (it : ItypeSpec)
    (src graph : List String) (role_uris : Dict)
    (acc : List Stmt × List Stmt × Nat) : List Stmt × List Stmt × Nat :=
  (caseKeys src graph).foldl
    (roleStep grant_uri dti it src graph role_uris) acc

/-- Accumulation of (addition, retraction) pairs over a property table:
ardf = ardf + add and srdf = srdf + sub on every iteration. -/
def emitFold {α : Type} (f : α → List Stmt × List Stmt) (L : List α)
    (acc : List Stmt × List Stmt) : List Stmt × List Stmt :=
  L.foldl (fun acc x => (acc.1 ++ (f x).1, acc.2 ++ (f x).2)) acc

/-- update_grant (grant_ingest.py lines 682 to 831): reconcile every
scalar property and reference property of the static tables, then the
three investigator role collections.  Returns the addition batch, the
retraction batch and the identifier counter. -/
def update_grant (grant_uri : String) (grant : GrantVivo)
    (grant_data : GrantData) (n : Nat) : List Stmt × List Stmt × Nat :=
  let props := emitFold
    (fun pp => grantPropStep grant_uri grant.props grant_data.props
      pp.1 pp.2) grantProperties ([], [])
  let res := emitFold
    (fun pp => grantResourceStep grant_uri grant.props grant_data.props
      pp.1 pp.2) grantResources props
  let dti := (lookupD grant_data.props "dti_uri").getD ""
  let r1 := updateRolesFor grant_uri dti piSpec grant_data.pi_uris
    grant.pi_uris grant.role_uris (res.1, res.2, n)
  let r2 := updateRolesFor grant_uri dti coiSpec grant_data.coi_uris
    grant.coi_uris grant.role_uris r1
  updateRolesFor grant_uri dti invSpec grant_data.inv_uris
    grant.inv_uris grant.role_uris r2

/-- add_grant (grant_ingest.py lines 666 to 680): allocate a grant URI,
assert its two types, then reuse update_grant against the (still empty)
VIVO image of the new URI; only the addition RDF is kept.  getGrant stands
for the external vivotools get_grant query. -/
def add_grant (getGrant : String → GrantVivo) (grant_data : GrantData)
    (n : Nat) : List Stmt × String × Nat :=
  let grant_uri := newUri n
  let ts := [Stmt.triple grant_uri "rdf:type"
               "http://www.w3.org/2002/07/owl#Thing",
             Stmt.triple grant_uri "rdf:type"
               "http://vivoweb.org/ontology/core#Grant"]
  let r := update_grant grant_uri (getGrant grant_uri) grant_data (n + 1)
  (ts ++ r.1, grant_uri, r.2.2)

/-- Python dict increment m[k] = m.get(k, 0) + v, as a function update. -/
def bump (m : String → Nat) (k : String) (v : Nat) : String → Nat :=
  fun x => if x = k then m x + v else m x

/-- The action report of grant_ingest.py lines 916 to 920 and
person-ingest.py lines 1246 to 1250: every source key adds 1, every graph
key adds 2. -/
def actionReport (src graph : List String) : String → Nat :=
  let m1 := src.foldl (fun m k => bump m k 1) (fun _ => 0)
  graph.foldl (fun m k => bump m k 2) m1

/-- First-match lookup in the dsp dictionary of grant records. -/
def lookupG : List (String × GrantData) → String → Option GrantData
  | [], _ => none
  | (k', v) :: rest, k => if k = k' then some v else lookupG rest k

/-- Driver processing of one pcn (grant_ingest.py lines 960 to 992):
case 1 adds the grant, case 2 does nothing, otherwise the grant is
updated.  The third component logs which builder or updater was invoked
for the key. -/
def processPcn (getGrant : String → GrantVivo)
    (dspD : List (String × GrantData)) (grantD : Dict) (pcn : String)
    (n : Nat) : List Stmt × List Stmt × List String × Nat :=
  let c := actionReport (dspD.map (fun p => p.1))
    (grantD.map (fun p => p.1)) pcn
  if c = 1 then
    match lookupG dspD pcn with
    | some gd =>
        let r := add_grant getGrant gd n
        (r.1, [], ["add_grant " ++ pcn], r.2.2)
    | none => ([], [], [], n)
  else if c = 2 then ([], [], [], n)
  else
    match lookupG dspD pcn, lookupD grantD pcn with
    | some gd, some uri =>
        let r := update_grant uri (getGrant uri) gd n
        (r.1, r.2.1, ["update_grant " ++ pcn], r.2.2)
    | _, _ => ([], [], [], n)

/-- The full grant driver loop (grant_ingest.py lines 949 to 992):
process every key of the action report in sorted order, accumulating the
addition batch, the retraction batch and the invocation log. -/
def grantRun (getGrant : String → GrantVivo)
    (dspD : List (String × GrantData)) (grantD : Dict) (n : Nat) :
    List Stmt × List Stmt × List String × Nat :=
  let keys := (caseKeys (dspD.map (fun p => p.1))
    (grantD.map (fun p => p.1))).mergeSort (fun a b => a ≤ b)
  keys.foldl (fun acc pcn =>
    let r := processPcn getGrant dspD grantD pcn acc.2.2.2
    (acc.1 ++ r.1, acc.2.1 ++ r.2.1, acc.2.2.1 ++ r.2.2.1, r.2.2.2))
    ([], [], [], n)

/-! ## Helper lemmas on dictionaries, folds and the action report -/

theorem lookupD_isSome_iff (d : Dict) (k : String) :
    (lookupD d k).isSome = true ↔ k ∈ d.map (fun p => p.1) := by
  induction d with
  | nil => simp [lookupD]
  | cons a t ih =>
    by_cases h : k = a.1
    · simp [lookupD, h]
    · simp [lookupD, h, ih]

theorem lookupG_mem_pair (d : List (String × GrantData)) (k : String)
    (v : GrantData) (h : lookupG d k = some v) : (k, v) ∈ d := by
  induction d with
  | nil => simp [lookupG] at h
  | cons a t ih =>
    by_cases hk : k = a.1
    · subst hk
      simp [lookupG] at h
      subst h
      simp
    · simp [lookupG, hk] at h
      exact List.mem_cons_of_mem _ (ih h)

theorem lookupG_none_not_mem (d : List (String × GrantData)) (k : String)
    (h : lookupG d k = none) : k ∉ d.map (fun p => p.1) := by
  induction d with
  | nil => simp
  | cons a t ih =>
    by_cases hk : k = a.1
    · subst hk; simp [lookupG] at h
    · simp [lookupG, hk] at h
      simp [hk, ih h]

theorem foldBump (S : List String) (m : String → Nat) (v : Nat)
    (k : String) (h : S.Nodup) :
    (S.foldl (fun m x => bump m x v) m) k =
      m k + if k ∈ S then v else 0 := by
  induction S generalizing m with
  | nil => simp
  | cons a t ih =>
    rcases List.nodup_cons.mp h with ⟨ha, ht⟩
    simp only [List.foldl_cons]
    rw [ih _ ht]
    by_cases hk : k = a
    · subst hk
      simp [bump, ha]
    · simp [bump, hk]

theorem actionReport_eq (S G : List String) (hS : S.Nodup)
    (hG : G.Nodup) (k : String) :
    actionReport S G k =
      (if k ∈ S then 1 else 0) + (if k ∈ G then 2 else 0) := by
  unfold actionReport
  rw [foldBump G _ 2 k hG, foldBump S _ 1 k hS]
  simp

theorem emitFold_nil {α : Type} (L : List α)
    (f : α → List Stmt × List Stmt) (acc : List Stmt × List Stmt)
    (h : ∀ x ∈ L, f x = ([], [])) : emitFold f L acc = acc := by
  induction L generalizing acc with
  | nil => rfl
  | cons a t ih =>
    have ha := h a (by simp)
    simp only [emitFold, List.foldl_cons, ha] at *
    simpa [emitFold] using ih acc (fun x hx => h x (by simp [hx]))

theorem foldl_fixed {α β : Type} (L : List α) (f : β → α → β)
    (h : ∀ b x, x ∈ L → f b x = b) (acc : β) : L.foldl f acc = acc := by
  induction L generalizing acc with
  | nil => rfl
  | cons a t ih =>
    simp only [List.foldl_cons, h acc a (by simp)]
    exact ih (fun b x hx => h b x (by simp [hx])) acc

theorem update_data_property_self (u p : String) (v : Option String) :
    update_data_property u p v v = ([], []) := by
  cases v <;> simp [update_data_property]

theorem update_resource_property_self (u p : String) (v : Option String) :
    update_resource_property u p v v = ([], []) := by
  cases v <;> simp [update_resource_property]

theorem grantPropStep_eq (u : String) (g s : Dict) (p pr : String) :
    grantPropStep u g s p pr =
      update_data_property u pr (normValue g p) (normValue s p) := rfl

theorem grantResourceStep_eq (u : String) (g s : Dict) (p pr : String) :
    grantResourceStep u g s p pr =
      update_resource_property u pr (normValue g p) (normValue s p) := rfl

/-- Boolean test that every investigator URI of one role kind has case
value 3 (present once in the source list and once in the VIVO list). -/
def allCase3 (src graph : List String) : Bool :=
  (caseKeys src graph).all
    (fun u => src.count u + 2 * graph.count u == 3)

/-- Boolean test that all three role collections of a grant already match
between VIVO and the source. -/
def rolesMatch (g : GrantVivo) (gd : GrantData) : Bool :=
  allCase3 gd.pi_uris g.pi_uris && allCase3 gd.coi_uris g.coi_uris &&
    allCase3 gd.inv_uris g.inv_uris

theorem updateRolesFor_fixed (u dti : String) (it : ItypeSpec)
    (src graph : List String) (role_uris : Dict)
    (h : allCase3 src graph = true) (acc : List Stmt × List Stmt × Nat) :
    updateRolesFor u dti it src graph role_uris acc = acc := by
  apply foldl_fixed
  intro b x hx
  have hc := (List.all_eq_true.mp h) x hx
  have hc' : src.count x + 2 * graph.count x = 3 := by simpa using hc
  simp [roleStep, hc']

theorem update_grant_noop (u : String) (g : GrantVivo) (gd : GrantData)
    (n : Nat)
    (hp : ∀ key ∈ (grantProperties ++ grantResources).map
      (fun q => q.1), normValue g.props key = normValue gd.props key)
    (hr : rolesMatch g gd = true) :
    update_grant u g gd n = ([], [], n) := by
  have hprops : emitFold
      (fun pp => grantPropStep u g.props gd.props pp.1 pp.2)
      grantProperties ([], []) = ([], []) := by
    apply emitFold_nil
    intro pp hpp
    rw [grantPropStep_eq, hp pp.1 (by simp; exact Or.inl ⟨pp.2, hpp⟩)]
    exact update_data_property_self _ _ _
  have hres : emitFold
      (fun pp => grantResourceStep u g.props gd.props pp.1 pp.2)
      grantResources ([], []) = ([], []) := by
    apply emitFold_nil
    intro pp hpp
    rw [grantResourceStep_eq, hp pp.1 (by simp; exact Or.inr ⟨pp.2, hpp⟩)]
    exact update_resource_property_self _ _ _
  simp only [rolesMatch, Bool.and_eq_true] at hr
  obtain ⟨⟨h1, h2⟩, h3⟩ := hr
  simp only [update_grant, hprops, hres]
  rw [updateRolesFor_fixed _ _ _ _ _ _ h1,
    updateRolesFor_fixed _ _ _ _ _ _ h2,
    updateRolesFor_fixed _ _ _ _ _ _ h3]

theorem processPcn_noop (getGrant : String → GrantVivo)
    (dspD : List (String × GrantData)) (grantD : Dict) (pcn : String)
    (n : Nat)
    (hS : (dspD.map (fun p => p.1)).Nodup)
    (hG : (grantD.map (fun p => p.1)).Nodup)
    (hsub : ∀ p ∈ dspD, memD grantD p.1 = true)
    (hprops : ∀ p ∈ dspD,
      ∀ key ∈ (grantProperties ++ grantResources).map (fun q => q.1),
      normValue (getGrant ((lookupD grantD p.1).getD "")).props key =
        normValue p.2.props key)
    (hroles : ∀ p ∈ dspD,
      rolesMatch (getGrant ((lookupD grantD p.1).getD "")) p.2 = true) :
    (processPcn getGrant dspD grantD pcn n).1 = [] ∧
    (processPcn getGrant dspD grantD pcn n).2.1 = [] ∧
    (processPcn getGrant dspD grantD pcn n).2.2.2 = n := by
  cases hgd : lookupG dspD pcn with
  | some gd =>
    have hmem : (pcn, gd) ∈ dspD := lookupG_mem_pair _ _ _ hgd
    have hmemS : pcn ∈ dspD.map (fun p => p.1) :=
      List.mem_map.mpr ⟨(pcn, gd), hmem, rfl⟩
    have hmD : memD grantD pcn = true := hsub _ hmem
    have hmemG : pcn ∈ grantD.map (fun p => p.1) :=
      (lookupD_isSome_iff _ _).mp (by simpa [memD] using hmD)
    have hc : actionReport (dspD.map (fun p => p.1))
        (grantD.map (fun p => p.1)) pcn = 3 := by
      rw [actionReport_eq _ _ hS hG]
      simp [hmemS, hmemG]
    obtain ⟨uri, huri⟩ : ∃ u, lookupD grantD pcn = some u :=
      Option.isSome_iff_exists.mp ((lookupD_isSome_iff grantD pcn).mpr hmemG)
    have hug : update_grant uri (getGrant uri) gd n = ([], [], n) := by
      apply update_grant_noop
      · have hx := hprops _ hmem
        rw [huri] at hx
        simpa using hx
      · have hx := hroles _ hmem
        rw [huri] at hx
        simpa using hx
    simp [processPcn, hc, hgd, huri, hug]
  | none =>
    have hnot : pcn ∉ dspD.map (fun p => p.1) :=
      lookupG_none_not_mem _ _ hgd
    have hc := actionReport_eq (dspD.map (fun p => p.1))
      (grantD.map (fun p => p.1)) hS hG pcn
    by_cases hg : pcn ∈ grantD.map (fun p => p.1)
    · simp [processPcn, hc, hnot, hg, hgd]
    · simp [processPcn, hc, hnot, hg, hgd]

theorem runFold_noop (getGrant : String → GrantVivo)
    (dspD : List (String × GrantData)) (grantD : Dict)
    (keys : List String)
    (h : ∀ pcn m, (processPcn getGrant dspD grantD pcn m).1 = [] ∧
      (processPcn getGrant dspD grantD pcn m).2.1 = [] ∧
      (processPcn getGrant dspD grantD pcn m).2.2.2 = m)
    (a1 a2 : List Stmt) (a3 : List String) (n : Nat) :
    (keys.foldl (fun acc pcn =>
      let r := processPcn getGrant dspD grantD pcn acc.2.2.2
      (acc.1 ++ r.1, acc.2.1 ++ r.2.1, acc.2.2.1 ++ r.2.2.1, r.2.2.2))
      (a1, a2, a3, n)).1 = a1 ∧
    (keys.foldl (fun acc pcn =>
      let r := processPcn getGrant dspD grantD pcn acc.2.2.2
      (acc.1 ++ r.1, acc.2.1 ++ r.2.1, acc.2.2.1 ++ r.2.2.1, r.2.2.2))
      (a1, a2, a3, n)).2.1 = a2 ∧
    (keys.foldl (fun acc pcn =>
      let r := processPcn getGrant dspD grantD pcn acc.2.2.2
      (acc.1 ++ r.1, acc.2.1 ++ r.2.1, acc.2.2.1 ++ r.2.2.1, r.2.2.2))
      (a1, a2, a3, n)).2.2.2 = n := by
  induction keys generalizing a1 a2 a3 n with
  | nil => exact ⟨rfl, rfl, rfl⟩
  | cons a t ih =>
    obtain ⟨e1, e2, e3⟩ := h a n
    simp only [List.foldl_cons]
    rw [e1, e2, e3]
    simp only [List.append_nil]
    exact ih _ _ _ _

/-- C2: if every reconciled property of every grant already equals its
source value (after null normalization) and every investigator role
already agrees, a run of the grant engine over the whole action report
emits an empty addition batch and an empty retraction batch. -/
theorem idempotentGrantRun (getGrant : String → GrantVivo)
    (dspD : List (String × GrantData)) (grantD : Dict) (n : Nat)
    (hS : (dspD.map (fun p => p.1)).Nodup)
    (hG : (grantD.map (fun p => p.1)).Nodup)
    (hsub : ∀ p ∈ dspD, memD grantD p.1 = true)
    (hprops : ∀ p ∈ dspD,
      ∀ key ∈ (grantProperties ++ grantResources).map (fun q => q.1),
      normValue (getGrant ((lookupD grantD p.1).getD "")).props key =
        normValue p.2.props key)
    (hroles : ∀ p ∈ dspD,
      rolesMatch (getGrant ((lookupD grantD p.1).getD "")) p.2 = true) :
    (grantRun getGrant dspD grantD n).1 = [] ∧
    (grantRun getGrant dspD grantD n).2.1 = [] := by
  have h := runFold_noop getGrant dspD grantD
    ((caseKeys (dspD.map (fun p => p.1))
      (grantD.map (fun p => p.1))).mergeSort (fun a b => a ≤ b))
    (fun pcn m =>
      processPcn_noop getGrant dspD grantD pcn m hS hG hsub hprops hroles)
    [] [] [] n
  exact ⟨h.1, h.2.1⟩

/-- Concrete grant snapshot for the idempotence witness. -/
def gVivoW : GrantVivo :=
  ⟨[("title", "T"), ("dti_uri", "d")], ["p"], [], [], [("p", "r")]⟩

/-- Concrete source record for the idempotence witness. -/
def gDataW : GrantData := ⟨[("title", "T"), ("dti_uri", "d")], ["p"], [], []⟩

theorem idempotentGrantRun_witness :
    (grantRun (fun _ => gVivoW) [("g1", gDataW)] [("g1", "uri1")] 0).1 =
      [] ∧
    (grantRun (fun _ => gVivoW) [("g1", gDataW)] [("g1", "uri1")] 0).2.1 =
      [] :=
  idempotentGrantRun (fun _ => gVivoW) [("g1", gDataW)] [("g1", "uri1")] 0
    (by decide) (by decide) (by decide) (by decide) (by decide)

/-- C3: the classifier assigns to each key of source union graph exactly
one case, computed as 1 if the key is in the source plus 2 if the key is
in the graph; a key is classified 3 (reconcile) exactly when it is in
both, 1 (create only) exactly when it is in the source only, 2 (retire
only) exactly when it is in the graph only, and no classified key has
value 0. -/
theorem classifierCases (S G : List String) (hS : S.Nodup) (hG : G.Nodup)
    (k : String) :
    actionReport S G k =
      (if k ∈ S then 1 else 0) + (if k ∈ G then 2 else 0) ∧
    (k ∈ S ∨ k ∈ G → actionReport S G k ≠ 0) ∧
    (actionReport S G k = 3 ↔ k ∈ S ∧ k ∈ G) ∧
    (actionReport S G k = 1 ↔ k ∈ S ∧ k ∉ G) ∧
    (actionReport S G k = 2 ↔ k ∉ S ∧ k ∈ G) := by
  have h := actionReport_eq S G hS hG k
  by_cases h1 : k ∈ S <;> by_cases h2 : k ∈ G <;> simp [h, h1, h2]

theorem classifierCases_witness :
    actionReport ["a", "b"] ["b", "c"] "b" =
      (if "b" ∈ ["a", "b"] then 1 else 0) +
        (if "b" ∈ ["b", "c"] then 2 else 0) :=
  (classifierCases ["a", "b"] ["b", "c"] (by decide) (by decide) "b").1

/-! ## make_dsp_dictionary: per-record validation and reference gating -/

/-- A line written to the exception sink.  Each constructor records the
natural key, the failing field and the kind of failure, mirroring the
print statements into exc_file. -/
inductive Exc where
  | invalidNumber (pcn field value : String)
  | negative (pcn field value : String)
  | totalLessThanDirect (pcn : String)
  | refNotFound (pcn field value : String)
  | invalidDate (pcn field value : String)
  | endBeforeStart (pcn : String)
  | noInstructor (rownum ufid : String)
  | noTerm (rownum term : String)
deriving DecidableEq, Repr

/-- The natural key an exception line was written for. -/
def excKey : Exc → String
  | Exc.invalidNumber pcn _ _ => pcn
  | Exc.negative pcn _ _ => pcn
  | Exc.totalLessThanDirect pcn => pcn
  | Exc.refNotFound pcn _ _ => pcn
  | Exc.invalidDate pcn _ _ => pcn
  | Exc.endBeforeStart pcn => pcn
  | Exc.noInstructor r _ => r
  | Exc.noTerm r _ => r

/-- Mutable run state of the grant ingest: the date dictionary (parsed
date value to URI), the datetime interval dictionary (concatenated start
and end URI to interval URI) and the identifier allocation counter. -/
structure IngestState where
  dateD : List (Int × String)
  dtiD : Dict
  counter : Nat
deriving DecidableEq, Repr

def lookupDate : List (Int × String) → Int → Option String
  | [], _ => none
  | (k', v) :: rest, k => if k = k' then some v else lookupDate rest k

/-- find_sponsor (grant_ingest.py lines 652 to 663): dictionary lookup
returning a found flag and the URI. -/
def find_sponsor (sponsorid : String) (d : Dict) : Bool × Option String :=
  match lookupD d sponsorid with
  | some u => (true, some u)
  | none => (false, none)

/-- Modelled from the spec: vivotools find_deptid, absent from src; the
same found-flag dictionary lookup as find_sponsor. -/
def find_deptid (deptid : String) (d : Dict) : Bool × Option String :=
  match lookupD d deptid with
  | some u => (true, some u)
  | none => (false, none)

/-- Modelled from the spec: vivotools find_person, absent from src; the
same found-flag dictionary lookup as find_sponsor. -/
def find_person (ufid : String) (d : Dict) : Bool × Option String :=
  match lookupD d ufid with
  | some u => (true, some u)
  | none => (false, none)

/-- Modelled from the spec: vivotools make_datetime_rdf, absent from src.
Allocates a datetime value entity with the given datetime text and
precision. -/
def make_datetime_rdf (dt precision : String) (n : Nat) :
    List Stmt × String × Nat :=
  let uri := newUri n
  ([Stmt.triple uri "rdf:type" "vivo:DateTimeValue",
    Stmt.triple uri "vivo:dateTime" dt,
    Stmt.triple uri "vivo:dateTimePrecision" precision], uri, n + 1)

/-- Modelled from the spec: vivotools make_dt_interval_rdf, absent from
src.  Allocates a datetime interval entity pointing at the optional start
and end datetime value URIs. -/
def make_dt_interval_rdf (start_uri end_uri : Option String) (n : Nat) :
    List Stmt × String × Nat :=
  let uri := newUri n
  let s2 := match start_uri with
    | some s => [Stmt.triple uri "vivo:start" s]
    | none => []
  let s3 := match end_uri with
    | some e => [Stmt.triple uri "vivo:end" e]
    | none => []
  ([Stmt.triple uri "rdf:type" "vivo:DateTimeInterval"] ++ s2 ++ s3,
   uri, n + 1)

/-- The lookup key of find_datetime_interval: None and the empty string
are both mapped to the key text None and the two sides are concatenated
into one string. -/
def dtiKey (start_uri end_uri : Option String) : String :=
  (match start_uri with
   | none => "None"
   | some s => if s = "" then "None" else s) ++
  (match end_uri with
   | none => "None"
   | some s => if s = "" then "None" else s)

/-- find_datetime_interval (grant_ingest.py lines 393 to 415): consult
the interval dictionary under the concatenated key. -/
def find_datetime_interval (start_uri end_uri : Option String)
    (dtiD : Dict) : Bool × Option String :=
  match lookupD dtiD (dtiKey start_uri end_uri) with
  | some u => (true, some u)
  | none => (false, none)

/-- The datetime interval block of make_dsp_dictionary (grant_ingest.py
lines 580 to 591): look the pair up; if absent and at least one end is
present, create a new interval and record it under the concatenation of
the two URIs.  Python concatenates the raw values there, so if exactly one
of them is None the store step raises an uncaught TypeError; that crash is
modelled as the none result. -/
def grantDtiStep (start_uri end_uri : Option String) (st : IngestState) :
    Option (Option String × List Stmt × IngestState) :=
  let f := find_datetime_interval start_uri end_uri st.dtiD
  if f.1 then some (f.2, [], st)
  else if start_uri.isSome || end_uri.isSome then
    match start_uri, end_uri with
    | some a, some b =>
        let r := make_dt_interval_rdf start_uri end_uri st.counter
        some (some r.2.1, r.1,
          ⟨st.dateD, insertD st.dtiD (a ++ b) r.2.1, r.2.2⟩)
    | _, _ => none
  else some (none, [], st)

/-- One date of a grant record (grant_ingest.py lines 539 to 571): parse
it (the Python strptime call is the external parser parameter), then
either reuse the URI in the date dictionary or create a new datetime
value and record it. -/
def dateStep (raw : String) (v : Option Int) (pcn fieldName : String)
    (st : IngestState) :
    Option String × List Stmt × IngestState × List Exc :=
  match v with
  | some d =>
    match lookupDate st.dateD d with
    | some u => (some u, [], st, [])
    | none =>
      let r := make_datetime_rdf (toString d) "vivo:yearMonthDayPrecision"
        st.counter
      (some r.2.1, r.1, ⟨(d, r.2.1) :: st.dateD, st.dtiD, r.2.2⟩, [])
  | none => (none, [], st, [Exc.invalidDate pcn fieldName raw])

/-- The investigator resolution loop of make_dsp_dictionary
(grant_ingest.py lines 595 to 609): an empty field yields no URIs, else
the field is split on commas and every UFID is resolved, appending an
exception for every UFID not found. -/
def invStep (ufidD : Dict) (pcn field : String)
    (acc : List String × List Exc) (ufid : String) :
    List String × List Exc :=
  match find_person ufid ufidD with
  | (true, some u) => (acc.1 ++ [u], acc.2)
  | _ => (acc.1, acc.2 ++ [Exc.refNotFound pcn field ufid])

def resolveInvestigators (ufidD : Dict) (pcn field value : String) :
    List String × List Exc :=
  if value = "" then ([], [])
  else (value.splitOn ",").foldl (invStep ufidD pcn field) ([], [])

/-- One row of the DSP grant extract (the CSV columns used by
make_dsp_dictionary). -/
structure GrantRow where
  AwardID : String
  Title : String
  SponsorAwardID : String
  TotalAwarded : String
  DirectCosts : String
  DeptID : String
  SponsorID : String
  StartDate : String
  EndDate : String
  PI : String
  CoPI : String
  Inv : String
deriving DecidableEq, Repr

/-- External collaborators of make_dsp_dictionary: the Python float and
strptime parsers, the grant title text cleanup (out of scope per the
spec), the harvest timestamp, and the three lookup dictionaries. -/
structure GrantEnv where
  parseAmt : String → Option Int
  parseDate : String → Option Int
  improveTitle : String → String
  now : String
  deptD : Dict
  sponsorD : Dict
  ufidD : Dict

/-- All exception lines make_dsp_dictionary writes for one row
(grant_ingest.py lines 461 to 609), in the order the checks run: total
amount parse, direct costs parse, negative total, negative direct, total
below direct, admin department, sponsor, start date, end date, end before
start, then the three investigator lists.  Every check runs; none of them
is skipped because an earlier one failed.  The list depends only on the
row and the environment, not on the run state. -/
def rowExcs (env : GrantEnv) (row : GrantRow) : List Exc :=
  let pcn := row.AwardID
  (match env.parseAmt row.TotalAwarded with
   | none => [Exc.invalidNumber pcn "Total Award Amount" row.TotalAwarded]
   | some _ => []) ++
  (match env.parseAmt row.DirectCosts with
   | none => [Exc.invalidNumber pcn "Grant Direct Costs" row.DirectCosts]
   | some _ => []) ++
  (match env.parseAmt row.TotalAwarded with
   | some t =>
     if t < 0 then [Exc.negative pcn "Total Award Amount" row.TotalAwarded]
     else []
   | none => []) ++
  (match env.parseAmt row.DirectCosts with
   | some d =>
     if d < 0 then [Exc.negative pcn "Grant Direct Costs" row.DirectCosts]
     else []
   | none => []) ++
  (match env.parseAmt row.TotalAwarded, env.parseAmt row.DirectCosts with
   | some t, some d => if t < d then [Exc.totalLessThanDirect pcn] else []
   | _, _ => []) ++
  (if (find_deptid row.DeptID env.deptD).1 then []
   else [Exc.refNotFound pcn "DeptID" row.DeptID]) ++
  (if (find_sponsor row.SponsorID env.sponsorD).1 then []
   else [Exc.refNotFound pcn "Sponsor" row.SponsorID]) ++
  (match env.parseDate row.StartDate with
   | none => [Exc.invalidDate pcn "Start date" row.StartDate]
   | some _ => []) ++
  (match env.parseDate row.EndDate with
   | none => [Exc.invalidDate pcn "End date" row.EndDate]
   | some _ => []) ++
  (match env.parseDate row.StartDate, env.parseDate row.EndDate with
   | some s, some e => if e < s then [Exc.endBeforeStart pcn] else []
   | _, _ => []) ++
  (resolveInvestigators env.ufidD pcn "PI" row.PI).2 ++
  (resolveInvestigators env.ufidD pcn "CoPI" row.CoPI).2 ++
  (resolveInvestigators env.ufidD pcn "Inv" row.Inv).2

/-- Result of processing one DSP row: the exception lines, the addition
RDF for new dates and intervals, the updated run state, and the validated
record (none when any_error was set, in which case the row never enters
the dsp dictionary). -/
structure RowResult where
  excs : List Exc
  ardf : List Stmt
  st : IngestState
  valid : Option GrantData
deriving Repr

/-- Per-row body of make_dsp_dictionary (grant_ingest.py lines 461 to
619).  Python sets any_error exactly at the sites that print an exception
line, so the record is valid precisely when its exception list is empty.
The none result models the uncaught TypeError of the interval store step
(see grantDtiStep). -/
def processGrantRow (env : GrantEnv) (st : IngestState) (row : GrantRow) :
    Option RowResult :=
  let pcn := row.AwardID
  let props0 : Dict :=
    [("AwardID", row.AwardID), ("Title", row.Title),
     ("SponsorAwardID", row.SponsorAwardID),
     ("TotalAwarded", row.TotalAwarded),
     ("DirectCosts", row.DirectCosts), ("DeptID", row.DeptID),
     ("SponsorID", row.SponsorID), ("StartDate", row.StartDate),
     ("EndDate", row.EndDate), ("PI", row.PI), ("CoPI", row.CoPI),
     ("Inv", row.Inv), ("pcn", pcn),
     ("title", env.improveTitle row.Title),
     ("sponsor_award_id", row.SponsorAwardID),
     ("local_award_id", row.AwardID),
     ("harvested_by", "Python Grants 0.8"),
     ("date_harvested", env.now)]
  let props1 := match env.parseAmt row.TotalAwarded with
    | some _ => insertD props0 "total_award_amount" row.TotalAwarded
    | none => props0
  let props2 := match env.parseAmt row.DirectCosts with
    | some _ => insertD props1 "grant_direct_costs" row.DirectCosts
    | none => props1
  let props3 := match (find_deptid row.DeptID env.deptD).2 with
    | some u => insertD props2 "administered_by_uri" u
    | none => props2
  let props4 := match (find_sponsor row.SponsorID env.sponsorD).2 with
    | some u => insertD props3 "sponsor_uri" u
    | none => props3
  let s1 := dateStep row.StartDate (env.parseDate row.StartDate) pcn
    "Start date" st
  let s2 := dateStep row.EndDate (env.parseDate row.EndDate) pcn
    "End date" s1.2.2.1
  (grantDtiStep s1.1 s2.1 s2.2.2.1).map (fun dres =>
    let props5 := match dres.1 with
      | some u => insertD props4 "dti_uri" u
      | none => props4
    let ri := resolveInvestigators env.ufidD pcn "PI" row.PI
    let rc := resolveInvestigators env.ufidD pcn "CoPI" row.CoPI
    let rv := resolveInvestigators env.ufidD pcn "Inv" row.Inv
    let excs := rowExcs env row
    let valid := if excs.isEmpty then
        some (⟨props5, ri.1, rc.1, rv.1⟩ : GrantData)
      else none
    ⟨excs, s1.2.1 ++ s2.2.1 ++ dres.2.1, dres.2.2, valid⟩)

/-- The row loop of make_dsp_dictionary, accumulating the addition RDF,
the error count, the dsp dictionary (last row wins on a duplicate pcn),
the run state and the exception sink contents. -/
def makeDspAux (env : GrantEnv) :
    List GrantRow → IngestState → List Stmt → Nat →
    List (String × GrantData) → List Exc →
    Option (List Stmt × Nat × List (String × GrantData) × IngestState ×
      List Exc)
  | [], st, ardf, ec, d, ex => some (ardf, ec, d, st, ex)
  | r :: rs, st, ardf, ec, d, ex =>
    match processGrantRow env st r with
    | none => none
    | some res =>
      match res.valid with
      | some gd => makeDspAux env rs res.st (ardf ++ res.ardf) ec
          ((r.AwardID, gd) :: d) (ex ++ res.excs)
      | none => makeDspAux env rs res.st (ardf ++ res.ardf) (ec + 1) d
          (ex ++ res.excs)

/-- make_dsp_dictionary (grant_ingest.py lines 449 to 620). -/
def make_dsp_dictionary (env : GrantEnv) (rows : List GrantRow)
    (st : IngestState) :
    Option (List Stmt × Nat × List (String × GrantData) × IngestState ×
      List Exc) :=
  makeDspAux env rows st [] 0 [] []

/-! ## course_ingest driver loop -/

/-- One row of the registrar extract after the derivations of
make_taught_dictionary. -/
structure TaughtRow where
  ufid : String
  term_name : String
  course_number : String
  course_name : String
  section_number : String
  section_name : String
deriving DecidableEq, Repr

/-- make_course_rdf (course_ingest.py lines 84 to 105). -/
def make_course_rdf (row : TaughtRow) (now : String) (n : Nat) :
    List Stmt × String × Nat :=
  let course_uri := newUri n
  ([Stmt.triple course_uri "rdf:type" "http://www.w3.org/2002/07/owl#Thing",
    Stmt.triple course_uri "rdf:type"
      "http://vivo.ufl.edu/ontology/vivo-ufl/Course",
    Stmt.triple course_uri "rdf:type"
      "http://vivo.ufl.edu/ontology/vivo-ufl/UFEntity",
    Stmt.triple course_uri "rdfs:label" row.course_name,
    Stmt.triple course_uri "ufVivo:courseNum" row.course_number,
    Stmt.triple course_uri "ufVivo:harvestedBy"
      "Python Courses version 0.5",
    Stmt.triple course_uri "ufVivo:dateHarvested" now], course_uri, n + 1)

/-- make_section_rdf (course_ingest.py lines 107 to 156): the section,
its link to the term and course, the teacher role, and, for a course that
was just created, the course-level teacher role. -/
def make_section_rdf (row : TaughtRow) (term_uri course_uri person_uri :
    String) (course_new : Bool) (now : String) (n : Nat) :
    List Stmt × String × Nat :=
  let section_uri := newUri n
  let teacher_role_uri := newUri (n + 1)
  let course_role_uri := newUri (n + 2)
  let base :=
    [Stmt.triple section_uri "rdf:type"
       "http://www.w3.org/2002/07/owl#Thing",
     Stmt.triple section_uri "rdf:type"
       "http://vivo.ufl.edu/ontology/vivo-ufl/CourseSection",
     Stmt.triple section_uri "rdf:type"
       "http://vivo.ufl.edu/ontology/vivo-ufl/UFEntity",
     Stmt.triple section_uri "rdfs:label" row.section_name,
     Stmt.triple section_uri "ufVivo:sectionNum" row.section_number,
     Stmt.triple section_uri "vivo:dateTimeInterval" term_uri,
     Stmt.triple section_uri "ufVivo:sectionForCourse" course_uri,
     Stmt.triple section_uri "ufVivo:harvestedBy"
       "Python Courses version 0.5",
     Stmt.triple section_uri "ufVivo:dateHarvested" now,
     Stmt.triple term_uri "ufVivo:dateTimeIntervalFor" section_uri]
  let courseRole := if course_new then
      [Stmt.triple course_role_uri "rdf:type"
         "http://www.w3.org/2002/07/owl#Thing",
       Stmt.triple course_role_uri "rdf:type"
         "http://vivoweb.org/ontology/core#TeacherRole",
       Stmt.triple course_role_uri "rdfs:label" row.course_name,
       Stmt.triple course_role_uri "ufVivo:courseRoleOf" person_uri,
       Stmt.triple course_role_uri "vivo:roleRealizedIn" course_uri]
    else []
  let teacherRole :=
    [Stmt.triple teacher_role_uri "rdf:type"
       "http://www.w3.org/2002/07/owl#Thing",
     Stmt.triple teacher_role_uri "rdf:type"
       "http://vivoweb.org/ontology/core#TeacherRole",
     Stmt.triple teacher_role_uri "vivo:teacherRoleOf" person_uri,
     Stmt.triple teacher_role_uri "vivo:roleRealizedIn" section_uri]
  (base ++ courseRole ++ teacherRole, section_uri, n + 3)

/-- One iteration of the course driver loop (course_ingest.py lines 352
to 411): the instructor is looked up first and a failure skips the record
at once (the term is never checked); then the term, with the same
treatment; then the course and section are looked up and created if
absent, mutating their dictionaries.  Returns the exception lines, the
addition RDF, the updated course and section dictionaries and the
counter. -/
def processTaught (ufidD termD : Dict) (courseD sectD : Dict)
    (row : TaughtRow) (rownum now : String) (n : Nat) :
    List Exc × List Stmt × Dict × Dict × Nat :=
  match lookupD ufidD row.ufid with
  | none => ([Exc.noInstructor rownum row.ufid], [], courseD, sectD, n)
  | some person_uri =>
    match lookupD termD row.term_name with
    | none => ([Exc.noTerm rownum row.term_name], [], courseD, sectD, n)
    | some term_uri =>
      let cres := match lookupD courseD row.course_number with
        | some curi => (([] : List Stmt), curi, courseD, false, n)
        | none =>
          let r := make_course_rdf row now n
          (r.1, r.2.1, insertD courseD row.course_number r.2.1, true,
           r.2.2)
      let sres := match lookupD sectD row.section_name with
        | some suri => (([] : List Stmt), suri, sectD, cres.2.2.2.2)
        | none =>
          let r := make_section_rdf row term_uri cres.2.1 person_uri
            cres.2.2.2.1 now cres.2.2.2.2
          (r.1, r.2.1, insertD sectD row.section_name r.2.1, r.2.2)
      ([], cres.1 ++ sres.1, cres.2.2.1, sres.2.2.1, sres.2.2.2)

/-! ## Required-reference gating (C4) -/

/-- Boolean test that a comma-separated investigator field names at least
one UFID that is missing from the lookup dictionary. -/
def badInvList (ufidD : Dict) (value : String) : Bool :=
  (value != "") &&
    (value.splitOn ",").any (fun u => (lookupD ufidD u).isNone)

/-- Boolean test that a grant row has at least one required
cross-reference (admin department, sponsor, or an investigator) that its
lookup dictionary cannot resolve. -/
def badRef (env : GrantEnv) (row : GrantRow) : Bool :=
  (lookupD env.deptD row.DeptID).isNone ||
  (lookupD env.sponsorD row.SponsorID).isNone ||
  badInvList env.ufidD row.PI || badInvList env.ufidD row.CoPI ||
  badInvList env.ufidD row.Inv

theorem invStep_mono (ufidD : Dict) (pcn field : String)
    (l : List String) (acc : List String × List Exc) (e : Exc)
    (he : e ∈ acc.2) :
    e ∈ (l.foldl (invStep ufidD pcn field) acc).2 := by
  induction l generalizing acc with
  | nil => exact he
  | cons a t ih =>
    apply ih
    simp only [invStep]
    split <;> simp [he]

theorem invStep_exc (ufidD : Dict) (pcn field : String) (l : List String)
    (u : String) (hu : u ∈ l) (hnone : lookupD ufidD u = none)
    (acc : List String × List Exc) :
    Exc.refNotFound pcn field u ∈ (l.foldl (invStep ufidD pcn field) acc).2 := by
  induction l generalizing acc with
  | nil => cases hu
  | cons a t ih =>
    rcases List.mem_cons.mp hu with h | h
    · subst h
      simp only [List.foldl_cons]
      apply invStep_mono
      unfold invStep find_person
      rw [hnone]
      simp
    · exact ih h _

theorem resolveInv_exc (ufidD : Dict) (pcn field value u : String)
    (hval : value ≠ "") (hu : u ∈ value.splitOn ",")
    (hnone : lookupD ufidD u = none) :
    Exc.refNotFound pcn field u ∈
      (resolveInvestigators ufidD pcn field value).2 := by
  unfold resolveInvestigators
  rw [if_neg hval]
  exact invStep_exc ufidD pcn field _ u hu hnone _

theorem rowExcs_badRef (env : GrantEnv) (row : GrantRow)
    (h : badRef env row = true) :
    ∃ e ∈ rowExcs env row, excKey e = row.AwardID := by
  simp only [badRef, Bool.or_eq_true] at h
  rcases h with ((((hd | hs) | h1) | h2) | h3)
  · have hd' : lookupD env.deptD row.DeptID = none :=
      Option.isNone_iff_eq_none.mp hd
    refine ⟨Exc.refNotFound row.AwardID "DeptID" row.DeptID, ?_, rfl⟩
    simp [rowExcs, find_deptid, hd']
  · have hs' : lookupD env.sponsorD row.SponsorID = none :=
      Option.isNone_iff_eq_none.mp hs
    refine ⟨Exc.refNotFound row.AwardID "Sponsor" row.SponsorID, ?_, rfl⟩
    simp [rowExcs, find_sponsor, hs']
  · simp only [badInvList, Bool.and_eq_true, bne_iff_ne, ne_eq,
      List.any_eq_true, Option.isNone_iff_eq_none] at h1
    obtain ⟨hne, u, hu, hn⟩ := h1
    refine ⟨Exc.refNotFound row.AwardID "PI" u, ?_, rfl⟩
    have hm := resolveInv_exc env.ufidD row.AwardID "PI" row.PI u hne hu hn
    simp only [rowExcs, List.mem_append]
    tauto
  · simp only [badInvList, Bool.and_eq_true, bne_iff_ne, ne_eq,
      List.any_eq_true, Option.isNone_iff_eq_none] at h2
    obtain ⟨hne, u, hu, hn⟩ := h2
    refine ⟨Exc.refNotFound row.AwardID "CoPI" u, ?_, rfl⟩
    have hm := resolveInv_exc env.ufidD row.AwardID "CoPI" row.CoPI u hne
      hu hn
    simp only [rowExcs, List.mem_append]
    tauto
  · simp only [badInvList, Bool.and_eq_true, bne_iff_ne, ne_eq,
      List.any_eq_true, Option.isNone_iff_eq_none] at h3
    obtain ⟨hne, u, hu, hn⟩ := h3
    refine ⟨Exc.refNotFound row.AwardID "Inv" u, ?_, rfl⟩
    have hm := resolveInv_exc env.ufidD row.AwardID "Inv" row.Inv u hne
      hu hn
    simp only [rowExcs, List.mem_append]
    tauto

theorem processGrantRow_shape (env : GrantEnv) (st : IngestState)
    (row : GrantRow) (res : RowResult)
    (h : processGrantRow env st row = some res) :
    res.excs = rowExcs env row ∧
    res.valid = (if (rowExcs env row).isEmpty then res.valid else none) := by
  unfold processGrantRow at h
  rcases Option.map_eq_some'.mp h with ⟨dres, hdres, hres⟩
  rw [← hres]
  constructor
  · rfl
  · by_cases he : (rowExcs env row).isEmpty <;> simp [he]

theorem processGrantRow_valid_none (env : GrantEnv) (st : IngestState)
    (row : GrantRow) (res : RowResult)
    (h : processGrantRow env st row = some res)
    (hb : badRef env row = true) : res.valid = none := by
  obtain ⟨e, he, _⟩ := rowExcs_badRef env row hb
  have hne : (rowExcs env row).isEmpty = false := by
    cases hx : rowExcs env row with
    | nil => rw [hx] at he; cases he
    | cons a l => simp
  have hs := processGrantRow_shape env st row res h
  rw [hs.2, hne]
  simp

theorem makeDspAux_not_mem (env : GrantEnv) (rows : List GrantRow)
    (st : IngestState) (ardf : List Stmt) (ec : Nat)
    (d : List (String × GrantData)) (ex : List Exc)
    (out : List Stmt × Nat × List (String × GrantData) × IngestState ×
      List Exc)
    (h : makeDspAux env rows st ardf ec d ex = some out) (pcn : String)
    (hrows : ∀ r ∈ rows, r.AwardID = pcn →
      ∀ st' res, processGrantRow env st' r = some res → res.valid = none)
    (hd : lookupG d pcn = none) : lookupG out.2.2.1 pcn = none := by
  induction rows generalizing st ardf ec d ex with
  | nil =>
    simp only [makeDspAux, Option.some.injEq] at h
    rw [← h]
    exact hd
  | cons r rs ih =>
    unfold makeDspAux at h
    split at h
    · cases h
    · rename_i res hres
      split at h
      · rename_i gd hgd
        by_cases hrk : r.AwardID = pcn
        · exact absurd (hrows r (by simp) hrk st res hres) (by simp [hgd])
        · refine ih _ _ _ _ _ h
            (fun r' hr' => hrows r' (by simp [hr'])) ?_
          simp [lookupG, Ne.symm hrk, hrk, hd]
      · exact ih _ _ _ _ _ h (fun r' hr' => hrows r' (by simp [hr'])) hd

theorem makeDspAux_ex_mono (env : GrantEnv) (rows : List GrantRow)
    (st : IngestState) (ardf : List Stmt) (ec : Nat)
    (d : List (String × GrantData)) (ex : List Exc)
    (out : List Stmt × Nat × List (String × GrantData) × IngestState ×
      List Exc)
    (h : makeDspAux env rows st ardf ec d ex = some out) (e : Exc)
    (he : e ∈ ex) : e ∈ out.2.2.2.2 := by
  induction rows generalizing st ardf ec d ex with
  | nil =>
    simp only [makeDspAux, Option.some.injEq] at h
    rw [← h]
    exact he
  | cons r rs ih =>
    unfold makeDspAux at h
    split at h
    · cases h
    · split at h
      · exact ih _ _ _ _ _ h (by simp [he])
      · exact ih _ _ _ _ _ h (by simp [he])

theorem makeDspAux_exc (env : GrantEnv) (rows : List GrantRow)
    (st : IngestState) (ardf : List Stmt) (ec : Nat)
    (d : List (String × GrantData)) (ex : List Exc)
    (out : List Stmt × Nat × List (String × GrantData) × IngestState ×
      List Exc)
    (h : makeDspAux env rows st ardf ec d ex = some out) (r : GrantRow)
    (hr : r ∈ rows) (e : Exc) (he : e ∈ rowExcs env r) :
    e ∈ out.2.2.2.2 := by
  induction rows generalizing st ardf ec d ex with
  | nil => cases hr
  | cons r' rs ih =>
    unfold makeDspAux at h
    split at h
    · cases h
    · rename_i res hres
      rcases List.mem_cons.mp hr with hrr | hrr
      · subst hrr
        have hx : e ∈ res.excs := by
          rw [(processGrantRow_shape env st r res hres).1]
          exact he
        split at h
        · exact makeDspAux_ex_mono env rs _ _ _ _ _ _ h e (by simp [hx])
        · exact makeDspAux_ex_mono env rs _ _ _ _ _ _ h e (by simp [hx])
      · split at h
        · exact ih _ _ _ _ _ h hrr
        · exact ih _ _ _ _ _ h hrr

theorem foldBump_not_mem (S : List String) (m : String → Nat) (v : Nat)
    (k : String) (h : k ∉ S) :
    (S.foldl (fun m x => bump m x v) m) k = m k := by
  induction S generalizing m with
  | nil => rfl
  | cons a t ih =>
    have hk : k ≠ a := fun hk => h (by simp [hk])
    simp only [List.foldl_cons]
    rw [ih _ (fun hm => h (by simp [hm]))]
    simp [bump, hk]

theorem processPcn_absent (getGrant : String → GrantVivo)
    (dspD : List (String × GrantData)) (grantD : Dict) (pcn : String)
    (n : Nat) (hG : (grantD.map (fun p => p.1)).Nodup)
    (h : lookupG dspD pcn = none) :
    processPcn getGrant dspD grantD pcn n = ([], [], [], n) := by
  have hnot := lookupG_none_not_mem _ _ h
  have hc : actionReport (dspD.map (fun p => p.1))
      (grantD.map (fun p => p.1)) pcn =
      (if pcn ∈ grantD.map (fun p => p.1) then 2 else 0) := by
    unfold actionReport
    rw [foldBump _ _ 2 _ hG, foldBump_not_mem _ _ 1 _ hnot]
    simp
  by_cases hg : pcn ∈ grantD.map (fun p => p.1)
  · simp [processPcn, hc, hg, h]
  · simp [processPcn, hc, hg, h]

/-- C4: a source record with an unresolvable required cross-reference
(admin department, sponsor, or investigator for grants; instructor or
academic term for courses) is excluded from the valid record set, a
validation exception carrying its key reaches the exception sink, and
the driver neither invokes the entity builder or updater for its key nor
emits any addition or retraction statement for it; the course driver
likewise skips a record whose instructor is unresolved, and a record
whose instructor resolves but whose academic term does not, emitting
exactly one exception and no statements and leaving the course and
section dictionaries untouched in either case. -/
theorem requiredRefGating (env : GrantEnv) (rows : List GrantRow)
    (st0 : IngestState) (row : GrantRow)
    (out : List Stmt × Nat × List (String × GrantData) × IngestState ×
      List Exc)
    (getGrant : String → GrantVivo) (grantD : Dict) (n : Nat)
    (hmem : row ∈ rows)
    (hnodup : (rows.map (fun r => r.AwardID)).Nodup)
    (hbad : badRef env row = true)
    (hrun : make_dsp_dictionary env rows st0 = some out)
    (hG : (grantD.map (fun p => p.1)).Nodup) :
    lookupG out.2.2.1 row.AwardID = none ∧
    (∃ e ∈ out.2.2.2.2, excKey e = row.AwardID) ∧
    processPcn getGrant out.2.2.1 grantD row.AwardID n = ([], [], [], n) ∧
    (∀ (ufidD termD courseD sectD : Dict) (rownum now : String)
       (m : Nat) (trow : TaughtRow), lookupD ufidD trow.ufid = none →
       processTaught ufidD termD courseD sectD trow rownum now m =
         ([Exc.noInstructor rownum trow.ufid], [], courseD, sectD, m)) ∧
    (∀ (ufidD termD courseD sectD : Dict) (rownum now : String)
       (m : Nat) (trow : TaughtRow) (puri : String),
       lookupD ufidD trow.ufid = some puri →
       lookupD termD trow.term_name = none →
       processTaught ufidD termD courseD sectD trow rownum now m =
         ([Exc.noTerm rownum trow.term_name], [], courseD, sectD, m)) := by
  have hnm : lookupG out.2.2.1 row.AwardID = none := by
    apply makeDspAux_not_mem env rows st0 [] 0 [] [] out hrun row.AwardID
    · intro r hr hk st' res hres
      have hreq : r = row := by
        exact List.inj_on_of_nodup_map hnodup hr hmem (by rw [hk])
      subst hreq
      exact processGrantRow_valid_none env st' r res hres hbad
    · rfl
  refine ⟨hnm, ?_, ?_, ?_, ?_⟩
  · obtain ⟨e, he, hkey⟩ := rowExcs_badRef env row hbad
    exact ⟨e, makeDspAux_exc env rows st0 [] 0 [] [] out hrun row hmem e
      he, hkey⟩
  · exact processPcn_absent getGrant out.2.2.1 grantD row.AwardID n hG hnm
  · intro ufidD termD courseD sectD rownum now m trow hin
    simp [processTaught, hin]
  · intro ufidD termD courseD sectD rownum now m trow puri hin hterm
    simp [processTaught, hin, hterm]

/-- Concrete environment for the gating witness: the department
dictionary is empty, so the DeptID reference cannot resolve. -/
def envW : GrantEnv :=
  ⟨fun s => if s = "10" then some 10 else
      if s = "5" then some 5 else none,
   fun _ => none, id, "now", [], [("S", "su")], []⟩

/-- Concrete grant row for the gating witness: valid amounts, resolvable
sponsor, unresolvable DeptID, unparseable dates. -/
def rowW : GrantRow :=
  ⟨"G1", "T", "SA", "10", "5", "D", "S", "x", "y", "", "", ""⟩

/-- The run output on the single-row witness extract. -/
def outW : List Stmt × Nat × List (String × GrantData) × IngestState ×
    List Exc :=
  ([], 1, [], ⟨[], [], 0⟩,
   [Exc.refNotFound "G1" "DeptID" "D",
    Exc.invalidDate "G1" "Start date" "x",
    Exc.invalidDate "G1" "End date" "y"])

theorem requiredRefGating_witness :
    lookupG outW.2.2.1 "G1" = none ∧
    (∃ e ∈ outW.2.2.2.2, excKey e = "G1") ∧
    processPcn (fun _ => gVivoW) outW.2.2.1 [] "G1" 0 = ([], [], [], 0) ∧
    (∀ (ufidD termD courseD sectD : Dict) (rownum now : String)
       (m : Nat) (trow : TaughtRow), lookupD ufidD trow.ufid = none →
       processTaught ufidD termD courseD sectD trow rownum now m =
         ([Exc.noInstructor rownum trow.ufid], [], courseD, sectD, m)) ∧
    (∀ (ufidD termD courseD sectD : Dict) (rownum now : String)
       (m : Nat) (trow : TaughtRow) (puri : String),
       lookupD ufidD trow.ufid = some puri →
       lookupD termD trow.term_name = none →
       processTaught ufidD termD courseD sectD trow rownum now m =
         ([Exc.noTerm rownum trow.term_name], [], courseD, sectD, m)) :=
  requiredRefGating envW [rowW] ⟨[], [], 0⟩ rowW outW (fun _ => gVivoW)
    [] 0 (by simp) (by simp) (by rfl) (by rfl) (by simp)

/-! ## Case 2 for people: former_person (C5) -/

/-- A position of a person as returned by get_person with positions:
its URI, whether it already has an end date, and its datetime interval
URI when it has one. -/
structure PPos where
  position_uri : String
  has_end : Bool
  dti : Option String
deriving DecidableEq, Repr

/-- The parts of a person snapshot used by former_person: the optional
contact details and the owned positions. -/
structure PersonVivo where
  primary_phone_number : Option String
  primary_email : Option String
  fax_number : Option String
  preferred_title : Option String
  positions : List PPos
deriving DecidableEq, Repr

/-- Modelled from the spec: vivotools make_datetime_interval_rdf, absent
from src.  Creates datetime values for the present interval ends and the
interval entity linking them; the spec fixes year precision for the
close-out end dates this call produces. -/
def make_datetime_interval_rdf (start_date end_date : Option String)
    (n : Nat) : List Stmt × String × Nat :=
  let s1 := match start_date with
    | some s => let r := make_datetime_rdf s "year" n
                (r.1, some r.2.1, r.2.2)
    | none => ([], none, n)
  let s2 := match end_date with
    | some e => let r := make_datetime_rdf e "year" s1.2.2
                (r.1, some r.2.1, r.2.2)
    | none => ([], none, s1.2.2)
  let uri := newUri s2.2.2
  let link1 := match s1.2.1 with
    | some su => [Stmt.triple uri "vivo:start" su]
    | none => []
  let link2 := match s2.2.1 with
    | some eu => [Stmt.triple uri "vivo:end" eu]
    | none => []
  (s1.1 ++ s2.1 ++ [Stmt.triple uri "rdf:type" "vivo:DateTimeInterval"] ++
    link1 ++ link2, uri, s2.2.2 + 1)

/-- assert_end_date_for_position (person-ingest.py lines 988 to 1039):
when the position has a datetime interval, create an end datetime value
at the given precision and assert it as the interval end; otherwise
create a fresh interval carrying only the end date and attach it to the
position. -/
def assert_end_date_for_position (pos : PPos) (now precision : String)
    (n : Nat) : List Stmt × Nat :=
  match pos.dti with
  | some dtiu =>
    let r := make_datetime_rdf now precision n
    (r.1 ++ [Stmt.triple dtiu "core:end" r.2.1], r.2.2)
  | none =>
    let r := make_datetime_interval_rdf none (some now) n
    (r.1 ++ [Stmt.triple pos.position_uri "core:dateTimeInterval" r.2.1],
     r.2.2)

/-- former_person (person-ingest.py lines 1041 to 1101): retract the
UFCurrentEntity marker and the contact details that are present and
nonempty, and close every position that has no end date with an end date
of today at year precision; now is the datetime.now() isoformat text. -/
def former_person (uri : String) (person : PersonVivo) (now : String)
    (n : Nat) : List Stmt × List Stmt × Nat :=
  let phone := person.primary_phone_number.getD ""
  let email := person.primary_email.getD ""
  let fax := person.fax_number.getD ""
  let title := person.preferred_title.getD ""
  let sub :=
    [Stmt.triple uri "rdf:type"
       "http://vivo.ufl.edu/ontology/vivo-ufl/UFCurrentEntity"] ++
    (if phone.length > 0 then
      [Stmt.triple uri "vivo:primaryPhoneNumber" phone] else []) ++
    (if email.length > 0 then
      [Stmt.triple uri "vivo:primaryEmail" email] else []) ++
    (if fax.length > 0 then
      [Stmt.triple uri "vivo:faxNumber" fax] else []) ++
    (if title.length > 0 then
      [Stmt.triple uri "vivo:preferredTitle" title] else [])
  let addres := person.positions.foldl (fun acc pos =>
    if pos.has_end then acc
    else
      let r := assert_end_date_for_position pos now "year" acc.2
      (acc.1 ++ r.1, r.2)) (([] : List Stmt), n)
  (addres.1, sub, addres.2)

/-- C5: the retire-only policy for a person never deletes the parent
entity or touches its identity statements; the retraction batch is
exactly the UFCurrentEntity marker plus the contact details present on
the entity, positions that already carry an end date contribute nothing,
and an open position receives exactly one new end datetime value equal to
today at year precision attached to its interval. -/
theorem formerPersonPolicy (uri : String) (person : PersonVivo)
    (now : String) (n : Nat) :
    (former_person uri person now n).2.1 =
      [Stmt.triple uri "rdf:type"
         "http://vivo.ufl.edu/ontology/vivo-ufl/UFCurrentEntity"] ++
      (if (person.primary_phone_number.getD "").length > 0 then
        [Stmt.triple uri "vivo:primaryPhoneNumber"
          (person.primary_phone_number.getD "")] else []) ++
      (if (person.primary_email.getD "").length > 0 then
        [Stmt.triple uri "vivo:primaryEmail"
          (person.primary_email.getD "")] else []) ++
      (if (person.fax_number.getD "").length > 0 then
        [Stmt.triple uri "vivo:faxNumber"
          (person.fax_number.getD "")] else []) ++
      (if (person.preferred_title.getD "").length > 0 then
        [Stmt.triple uri "vivo:preferredTitle"
          (person.preferred_title.getD "")] else []) ∧
    (∀ u, Stmt.entity u ∉ (former_person uri person now n).2.1) ∧
    (∀ o, Stmt.triple uri "rdfs:label" o ∉
      (former_person uri person now n).2.1) ∧
    (∀ o, Stmt.triple uri "ufVivo:ufid" o ∉
      (former_person uri person now n).2.1) ∧
    ((∀ pos ∈ person.positions, pos.has_end = true) →
      (former_person uri person now n).1 = []) ∧
    (∀ (p : PPos) (d : String) (m : Nat), p.has_end = false →
      p.dti = some d →
      (former_person uri { person with positions := [p] } now m).1 =
        [Stmt.triple (newUri m) "rdf:type" "vivo:DateTimeValue",
         Stmt.triple (newUri m) "vivo:dateTime" now,
         Stmt.triple (newUri m) "vivo:dateTimePrecision" "year",
         Stmt.triple d "core:end" (newUri m)]) := by
  refine ⟨rfl, ?_, ?_, ?_, ?_, ?_⟩
  · intro u
    simp only [former_person]
    split_ifs <;> simp
  · intro o
    simp only [former_person]
    split_ifs <;> simp
  · intro o
    simp only [former_person]
    split_ifs <;> simp
  · intro hall
    simp only [former_person]
    rw [foldl_fixed _ _ (fun b pos hpos => by simp [hall pos hpos])]
  · intro p d m hend hdti
    simp [former_person, assert_end_date_for_position, make_datetime_rdf,
      hend, hdti]

/-- Concrete person for the former_person witness: phone and title
present, email and fax absent, one already closed position. -/
def personW : PersonVivo :=
  ⟨some "352", none, none, some "T", [⟨"p1", true, some "d1"⟩]⟩

theorem formerPersonPolicy_witness :
    (former_person "u" personW "2014" 0).1 = [] ∧
    (former_person "u" { personW with positions := [⟨"p2", false,
        some "d"⟩] } "2014" 5).1 =
      [Stmt.triple (newUri 5) "rdf:type" "vivo:DateTimeValue",
       Stmt.triple (newUri 5) "vivo:dateTime" "2014",
       Stmt.triple (newUri 5) "vivo:dateTimePrecision" "year",
       Stmt.triple "d" "core:end" (newUri 5)] :=
  ⟨(formerPersonPolicy "u" personW "2014" 0).2.2.2.2.1 (by decide),
   (formerPersonPolicy "u" personW "2014" 0).2.2.2.2.2
     ⟨"p2", false, some "d"⟩ "d" 5 rfl rfl⟩

/-! ## update_position and sub-entity diffing (C6) -/

/-- The HR fields update_position and add_position use. -/
structure HrData where
  DEPTID : String
  hr_title : String
  position_label : String
  HR_POSITION : String
  position_type : Option String
  START_DATE : String
  END_DATE : String
deriving DecidableEq, Repr

/-- A position of the VIVO person snapshot as compared by
update_position: position.get for the organization URI and the HR title
(either may be absent). -/
structure VPos where
  org_uri : Option String
  hr_title : Option String
deriving DecidableEq, Repr

/-- ok_position (person-ingest.py lines 501 to 508). -/
def ok_position (hr : HrData) : Bool := hr.HR_POSITION != "0"

/-- ok_position_title (person-ingest.py lines 510 to 523). -/
def ok_position_title (t : String) : Bool :=
  !(["Academic Lump Sum Payment", "Ops Lump Sum Payment"].contains t)

/-- ok_deptid (person-ingest.py lines 467 to 484); the regular expression
search of the Python re module is the external regSearch parameter. -/
def ok_deptid (regSearch : String → String → Bool)
    (patterns : List String) (deptid : String) : Bool :=
  !(patterns.any (fun p => regSearch p deptid))

/-- The type assertions of make_position_rdf chosen by position type
(person-ingest.py lines 403 to 445); the template tests each type with an
independent if. -/
def positionTypeStmts (position_uri : String) (pt : Option String) :
    List Stmt :=
  (if pt = some "non-faculty" then
    [Stmt.triple position_uri "rdf:type"
      "http://vivoweb.org/ontology/core#Non-FacultyAcademicPosition"]
   else []) ++
  (if pt = some "clinical-faculty" then
    [Stmt.triple position_uri "rdf:type"
       "http://vivoweb.org/ontology/core#FacultyPosition",
     Stmt.triple position_uri "rdf:type"
       "http://vivo.ufl.edu/ontology/vivo-ufl/ClinicalFacultyPosition"]
   else []) ++
  (if pt = some "faculty" then
    [Stmt.triple position_uri "rdf:type"
      "http://vivoweb.org/ontology/core#FacultyPosition"]
   else []) ++
  (if pt = some "courtesy-faculty" then
    [Stmt.triple position_uri "rdf:type"
       "http://vivoweb.org/ontology/core#FacultyPosition",
     Stmt.triple position_uri "rdf:type"
       "http://vivo.ufl.edu/ontology/vivo-ufl/CourtesyFacultyPosition"]
   else []) ++
  (if pt = some "postdoc" then
    [Stmt.triple position_uri "rdf:type"
       "http://vivoweb.org/ontology/core#FacultyPosition",
     Stmt.triple position_uri "rdf:type"
       "http://vivo.ufl.edu/ontology/vivo-ufl/PostDocPosition"]
   else []) ++
  (if pt = some "librarian" then
    [Stmt.triple position_uri "rdf:type"
      "http://vivoweb.org/ontology/core#LibrarianPosition"]
   else []) ++
  (if pt = some "non-academic" then
    [Stmt.triple position_uri "rdf:type"
      "http://vivoweb.org/ontology/core#Non-AcademicPosition"]
   else []) ++
  (if pt = some "student-assistant" then
    [Stmt.triple position_uri "rdf:type"
       "http://vivoweb.org/ontology/core#Non-AcademicPosition",
     Stmt.triple position_uri "rdf:type"
       "http://vivo.ufl.edu/ontology/vivo-ufl/StudentAssistant"]
   else []) ++
  (if pt = some "graduate-assistant" then
    [Stmt.triple position_uri "rdf:type"
       "http://vivoweb.org/ontology/core#Non-FacultyAcademicPosition",
     Stmt.triple position_uri "rdf:type"
       "http://vivo.ufl.edu/ontology/vivo-ufl/GraduateAssistant"]
   else []) ++
  (if pt = some "housestaff" then
    [Stmt.triple position_uri "rdf:type"
       "http://vivoweb.org/ontology/core#Non-FacultyAcademicPosition",
     Stmt.triple position_uri "rdf:type"
       "http://vivo.ufl.edu/ontology/vivo-ufl/Housestaff"]
   else []) ++
  (if pt = some "temp-faculty" then
    [Stmt.triple position_uri "rdf:type"
       "http://vivoweb.org/ontology/core#FacultyPosition",
     Stmt.triple position_uri "rdf:type"
       "http://vivo.ufl.edu/ontology/vivo-ufl/TemporaryFaculty"]
   else []) ++
  (if pt = some "faculty-administrative" then
    [Stmt.triple position_uri "rdf:type"
      "http://vivoweb.org/ontology/core#FacultyAdministrativePosition"]
   else [])

/-- make_position_rdf (person-ingest.py lines 389 to 465): the datetime
interval, the person and organization links, and the full position
statement set.  The external vivotools interval builder treats an empty
date string as an absent date. -/
def make_position_rdf (person_uri org_uri title position_label : String)
    (position_type : Option String) (start_date end_date now : String)
    (n : Nat) : List Stmt × String × Nat :=
  let sd := if start_date = "" then none else some start_date
  let ed := if end_date = "" then none else some end_date
  let r := make_datetime_interval_rdf sd ed n
  let position_uri := newUri r.2.2
  (r.1 ++
   [Stmt.triple person_uri "vivo:personInPosition" position_uri] ++
   [Stmt.triple org_uri "vivo:organizationForPosition" position_uri] ++
   [Stmt.triple position_uri "rdf:type"
      "http://www.w3.org/2002/07/owl#Thing",
    Stmt.triple position_uri "rdf:type"
      "http://vivoweb.org/ontology/core#Position",
    Stmt.triple position_uri "vivo:dateTimeInterval" r.2.1,
    Stmt.triple position_uri "vivo:positionForPerson" person_uri,
    Stmt.triple position_uri "vivo:positionInOrganization" org_uri] ++
   positionTypeStmts position_uri position_type ++
   [Stmt.triple position_uri "vivo:hrJobTitle" title,
    Stmt.triple position_uri "rdfs:label" position_label,
    Stmt.triple position_uri "ufVivo:harvestedBy"
      "Python People version 1.0",
    Stmt.triple position_uri "ufVivo:dateHarvested" now],
   position_uri, r.2.2 + 1)

/-- add_position (person-ingest.py lines 344 to 357). -/
def add_position (person_uri org_uri : String) (hr : HrData)
    (now : String) (n : Nat) : List Stmt × String × Nat :=
  make_position_rdf person_uri org_uri hr.hr_title hr.position_label
    hr.position_type hr.START_DATE hr.END_DATE now n

/-- update_position (person-ingest.py lines 948 to 986): raise when the
HR department is not in VIVO; otherwise scan the existing positions for
one matching the defining tuple (organization URI, HR title).  A match is
a no-op; with no match a qualified position is added in full.  The
retraction batch is always empty: update_position never retracts a
position. -/
def update_position (deptD : Dict) (regSearch : String → String → Bool)
    (patterns : List String) (person_uri : String)
    (positions : List VPos) (hr : HrData) (now : String) (n : Nat) :
    Except String (List Stmt × List Stmt × Nat) :=
  match lookupD deptD hr.DEPTID with
  | none => Except.error hr.DEPTID
  | some org_uri =>
    let mtch := positions.any (fun pos =>
      pos.org_uri == some org_uri && pos.hr_title == some hr.hr_title)
    if !mtch && ok_position_title hr.position_label && ok_position hr &&
        ok_deptid regSearch patterns hr.DEPTID then
      let r := add_position person_uri org_uri hr now n
      Except.ok (r.1, [], r.2.2)
    else
      Except.ok ([], [], n)

/-- Retraction batch of an update_position result. -/
def upSrdf (r : Except String (List Stmt × List Stmt × Nat)) :
    Option (List Stmt) :=
  match r with
  | Except.ok v => some v.2.1
  | Except.error _ => none

/-- C6 fails on the code: with the graph position (orgA, T1) and the
qualified source position (orgB, T2), the claim requires the graph-only
position to be retracted in full, but update_position emits an empty
retraction batch (its srdf is never appended to). -/
theorem subEntityDiff_counterexample :
    upSrdf (update_position [("D2", "orgB")] (fun _ _ => false) [] "pu"
      [⟨some "orgA", some "T1"⟩]
      ⟨"D2", "T2", "Lbl", "1", some "faculty", "", ""⟩ "now" 0) =
      some [] := by rfl

/-- C6 amended: grant roles follow the full three-way diff (same
defining tuple in both: no statements; source only: a complete new role
added in full; graph only: the connecting role retracted in full), while
for positions a matching tuple is a no-op and a qualified non-matching
source position is added in full with zero retractions; graph-only
positions are left untouched. -/
theorem subEntityDiffAmended (grant_uri dti : String) (it : ItypeSpec)
    (u1 u2 u3 : String) (role_uris : Dict) (n : Nat)
    (h12 : u1 ≠ u2) (h13 : u1 ≠ u3) (h23 : u2 ≠ u3)
    (deptD : Dict) (regSearch : String → String → Bool)
    (patterns : List String) (person_uri : String)
    (positions : List VPos) (hr : HrData) (now : String) (m : Nat)
    (org_uri : String) (hdept : lookupD deptD hr.DEPTID = some org_uri) :
    updateRolesFor grant_uri dti it [u1, u3] [u2, u3] role_uris
      ([], [], n) =
      (newRoleStmts grant_uri (newUri n) u1 dti it,
       [Stmt.entity ((lookupD role_uris u2).getD "")], n + 1) ∧
    (positions.any (fun pos => pos.org_uri == some org_uri &&
        pos.hr_title == some hr.hr_title) = true →
      update_position deptD regSearch patterns person_uri positions hr
        now m = Except.ok ([], [], m)) ∧
    (positions.any (fun pos => pos.org_uri == some org_uri &&
        pos.hr_title == some hr.hr_title) = false →
      ok_position_title hr.position_label = true →
      ok_position hr = true →
      ok_deptid regSearch patterns hr.DEPTID = true →
      update_position deptD regSearch patterns person_uri positions hr
        now m = Except.ok ((add_position person_uri org_uri hr now m).1,
          [], (add_position person_uri org_uri hr now m).2.2)) := by
  refine ⟨?_, ?_, ?_⟩
  · simp [updateRolesFor, caseKeys, insertKey, roleStep, h12, h13, h23,
      Ne.symm h12, Ne.symm h13, Ne.symm h23, List.count_cons]
  · intro hm
    simp [update_position, hdept, hm]
  · intro hm ht hp hd
    simp [update_position, hdept, hm, ht, hp, hd]

theorem subEntityDiffAmended_witness :
    updateRolesFor "g" "d" piSpec ["u1", "u3"] ["u2", "u3"]
      [("u2", "r2")] ([], [], 7) =
      (newRoleStmts "g" (newUri 7) "u1" "d" piSpec,
       [Stmt.entity "r2"], 8) ∧
    update_position [("D2", "orgB")] (fun _ _ => false) [] "pu"
      [⟨some "orgB", some "T2"⟩]
      ⟨"D2", "T2", "Lbl", "1", some "faculty", "", ""⟩ "now" 3 =
      Except.ok ([], [], 3) ∧
    update_position [("D2", "orgB")] (fun _ _ => false) [] "pu"
      [⟨some "orgA", some "T1"⟩]
      ⟨"D2", "T2", "Lbl", "1", some "faculty", "", ""⟩ "now" 3 =
      Except.ok ((add_position "pu" "orgB"
        ⟨"D2", "T2", "Lbl", "1", some "faculty", "", ""⟩ "now" 3).1, [],
        (add_position "pu" "orgB"
          ⟨"D2", "T2", "Lbl", "1", some "faculty", "", ""⟩ "now" 3).2.2) := by
  have h1 := subEntityDiffAmended "g" "d" piSpec "u1" "u2" "u3"
    [("u2", "r2")] 7 (by decide) (by decide) (by decide)
    [("D2", "orgB")] (fun _ _ => false) [] "pu"
    [⟨some "orgB", some "T2"⟩]
    ⟨"D2", "T2", "Lbl", "1", some "faculty", "", ""⟩ "now" 3 "orgB"
    (by rfl)
  have h2 := subEntityDiffAmended "g" "d" piSpec "u1" "u2" "u3"
    [("u2", "r2")] 7 (by decide) (by decide) (by decide)
    [("D2", "orgB")] (fun _ _ => false) [] "pu"
    [⟨some "orgA", some "T1"⟩]
    ⟨"D2", "T2", "Lbl", "1", some "faculty", "", ""⟩ "now" 3 "orgB"
    (by rfl)
  exact ⟨h1.1, h1.2.1 (by rfl), h2.2.2 (by rfl) (by rfl) (by rfl)
    (by rfl)⟩

/-! ## Lookup dictionary builders on query failure (C7) -/

/-- make_grant_dictionary (grant_ingest.py lines 417 to 447): the query
result is a list of (uri, pcn) bindings, or none when the query failed or
returned a malformed result; the code wraps the binding count in a bare
try/except that turns any failure into a count of zero, so the loop body
never runs and an empty dictionary is returned. -/
def make_grant_dictionary (result : Option (List (String × String))) :
    Dict :=
  match result with
  | none => []
  | some bs => bs.foldl (fun d b => insertD d b.2 b.1) []

/-- make_term_dictionary (course_ingest.py lines 207 to 237): the same
shape over (uri, label) bindings, with the same try/except collapse of a
failed query to a zero count. -/
def make_term_dictionary (result : Option (List (String × String))) :
    Dict :=
  match result with
  | none => []
  | some bs => bs.foldl (fun d b => insertD d b.2 b.1) []

/-- C7 fails on the code: a failed or unreachable query produces exactly
the same return value as a genuinely empty store, for the grant builder
and the term builder alike, so no failure is propagated and callers
cannot distinguish the two situations. -/
theorem storeFailure_counterexample :
    make_grant_dictionary none = make_grant_dictionary (some []) ∧
    make_term_dictionary none = make_term_dictionary (some []) ∧
    make_grant_dictionary none = [] ∧ make_term_dictionary none = [] :=
  ⟨rfl, rfl, rfl, rfl⟩

theorem buildDict_lookup (bs : List (String × String)) (d0 : Dict)
    (k : String) :
    lookupD (bs.foldl (fun d b => insertD d b.2 b.1) d0) k =
      (match bs.reverse.find? (fun b => b.2 == k) with
       | some b => some b.1
       | none => lookupD d0 k) := by
  induction bs generalizing d0 with
  | nil => simp
  | cons b t ih =>
    simp only [List.foldl_cons, List.reverse_cons]
    rw [ih]
    rw [List.find?_append]
    cases hf : t.reverse.find? (fun b => b.2 == k) with
    | some x => simp [hf]
    | none =>
      simp only [hf, Option.none_orElse]
      by_cases hk : b.2 = k
      · simp [insertD, lookupD, hk]
      · have : (b.2 == k) = false := by simp [hk]
        simp [insertD, lookupD, this, hk]
        intro h
        exact absurd h.symm hk

/-- C7 amended: on query failure the builders return the empty mapping
rather than propagating a store failure, making a failed query
indistinguishable from an empty store; on success the dictionary has one
entry per distinct key and a duplicate key is resolved last-write-wins
(the lookup returns the uri of the last binding carrying the key). -/
theorem storeFailureAmended (bs : List (String × String)) (k : String) :
    make_grant_dictionary none = [] ∧
    make_term_dictionary none = [] ∧
    lookupD (make_grant_dictionary (some bs)) k =
      (match bs.reverse.find? (fun b => b.2 == k) with
       | some b => some b.1
       | none => none) ∧
    lookupD (make_term_dictionary (some bs)) k =
      (match bs.reverse.find? (fun b => b.2 == k) with
       | some b => some b.1
       | none => none) := by
  refine ⟨rfl, rfl, ?_, ?_⟩ <;>
  · simp only [make_grant_dictionary, make_term_dictionary]
    rw [buildDict_lookup]
    cases bs.reverse.find? (fun b => b.2 == k) <;> simp [lookupD]

/-! ## Completeness of per-record validation (C8) -/

/-- C8 fails on the code: a course record whose instructor and term are
both unresolvable gets exactly one exception line (the instructor); the
driver skips the record before the term is ever checked, so not every
failing field produces an exception line. -/
theorem completeValidation_counterexample :
    processTaught [] [] [] []
      ⟨"u1", "Fall 2010", "ABC1", "n", "s", "sn"⟩ "1" "now" 0 =
      ([Exc.noInstructor "1" "u1"], [], [], [], 0) ∧
    Exc.noTerm "1" "Fall 2010" ∉
      (processTaught [] [] [] []
        ⟨"u1", "Fall 2010", "ABC1", "n", "s", "sn"⟩ "1" "now" 0).1 := by
  constructor
  · rfl
  · decide

/-- C8 amended: the grant ingest checks every field of a record and
writes one exception line per failing check even when several fail (each
membership below holds regardless of the other checks), while the course
driver is fail-fast across records: an unresolved instructor skips the
record with a single exception line and the term is never checked. -/
theorem completeValidationAmended (env : GrantEnv) (row : GrantRow) :
    (env.parseAmt row.TotalAwarded = none →
      Exc.invalidNumber row.AwardID "Total Award Amount"
        row.TotalAwarded ∈ rowExcs env row) ∧
    (∀ t, env.parseAmt row.TotalAwarded = some t → t < 0 →
      Exc.negative row.AwardID "Total Award Amount" row.TotalAwarded ∈
        rowExcs env row) ∧
    (lookupD env.deptD row.DeptID = none →
      Exc.refNotFound row.AwardID "DeptID" row.DeptID ∈
        rowExcs env row) ∧
    (lookupD env.sponsorD row.SponsorID = none →
      Exc.refNotFound row.AwardID "Sponsor" row.SponsorID ∈
        rowExcs env row) ∧
    (env.parseDate row.StartDate = none →
      Exc.invalidDate row.AwardID "Start date" row.StartDate ∈
        rowExcs env row) ∧
    (∀ s e, env.parseDate row.StartDate = some s →
      env.parseDate row.EndDate = some e → e < s →
      Exc.endBeforeStart row.AwardID ∈ rowExcs env row) ∧
    (∀ u, row.PI ≠ "" → u ∈ row.PI.splitOn "," →
      lookupD env.ufidD u = none →
      Exc.refNotFound row.AwardID "PI" u ∈ rowExcs env row) ∧
    (∀ (ufidD termD courseD sectD : Dict) (trow : TaughtRow)
       (rownum now : String) (m : Nat),
      lookupD ufidD trow.ufid = none →
      processTaught ufidD termD courseD sectD trow rownum now m =
        ([Exc.noInstructor rownum trow.ufid], [], courseD, sectD, m)) := by
  refine ⟨?_, ?_, ?_, ?_, ?_, ?_, ?_, ?_⟩
  · intro h
    simp [rowExcs, h]
  · intro t ht hneg
    simp [rowExcs, ht, hneg]
  · intro h
    simp [rowExcs, find_deptid, h]
  · intro h
    simp [rowExcs, find_sponsor, h]
  · intro h
    simp [rowExcs, h]
  · intro s e hs he hlt
    simp [rowExcs, hs, he, hlt]
  · intro u hne hu hnone
    have hm := resolveInv_exc env.ufidD row.AwardID "PI" row.PI u hne hu
      hnone
    simp only [rowExcs, List.mem_append]
    tauto
  · intro ufidD termD courseD sectD trow rownum now m h
    simp [processTaught, h]

theorem completeValidationAmended_witness :
    (lookupD (envW.deptD) (rowW.DeptID) = none ∧
     envW.parseDate rowW.StartDate = none) ∧
    Exc.refNotFound "G1" "DeptID" "D" ∈ rowExcs envW rowW ∧
    Exc.invalidDate "G1" "Start date" "x" ∈ rowExcs envW rowW :=
  ⟨⟨rfl, rfl⟩,
   (completeValidationAmended envW rowW).2.2.1 rfl,
   (completeValidationAmended envW rowW).2.2.2.2.1 rfl⟩

/-! ## Date interval construction (C9) -/

/-- add_dtv (person_ingest.py lines 362 to 385): no datetime value, no
statements and no identifier; otherwise a fresh datetime value entity
with the given precision. -/
def add_dtv (date_time : Option String) (precision : String) (n : Nat) :
    List Stmt × Option String × Nat :=
  match date_time with
  | none => ([], none, n)
  | some dt =>
    let dtv_uri := newUri n
    ([Stmt.triple dtv_uri "rdf:type" "vivo:DateTimeValue",
      Stmt.triple dtv_uri "vivo:dateTime" dt,
      Stmt.triple dtv_uri "vivo:dateTimePrecision" precision],
     some dtv_uri, n + 1)

/-- add_dti (person_ingest.py lines 387 to 419): both ends absent means
no statements and no identifier; otherwise a fresh interval entity
linking the created datetime values (the end link predicate is the
rdf:end text the source uses). -/
def add_dti (dti_start dti_end : Option String) (n : Nat) :
    List Stmt × Option String × Nat :=
  let r1 := add_dtv dti_start "vivo:yearMonthDayPrecision" n
  let r2 := add_dtv dti_end "vivo:yearMonthDayPrecision" r1.2.2
  match r1.2.1, r2.2.1 with
  | none, none => ([], none, r2.2.2)
  | s, e =>
    let dti_uri := newUri r2.2.2
    (r1.1 ++ r2.1 ++
     [Stmt.triple dti_uri "rdf:type" "vivo:DateTimeInterval"] ++
     (match s with
      | some su => [Stmt.triple dti_uri "vivo:start" su]
      | none => []) ++
     (match e with
      | some eu => [Stmt.triple dti_uri "rdf:end" eu]
      | none => []),
     some dti_uri, r2.2.2 + 1)

/-- C9 fails on the code: the two distinct (start, end) pairs
(aNone, b) and (a, Noneb) concatenate to the same dictionary key, so
find_datetime_interval resolves both to the same interval entity. -/
theorem dtiDistinct_counterexample :
    find_datetime_interval (some "aNone") (some "b") [("aNoneb", "u")] =
      (true, some "u") ∧
    find_datetime_interval (some "a") (some "Noneb") [("aNoneb", "u")] =
      (true, some "u") ∧
    ((some "aNone" : Option String), (some "b" : Option String)) ≠
      (some "a", some "Noneb") := by
  refine ⟨by rfl, by rfl, by decide⟩

/-- C9 amended: an interval entity is created only when at least one end
is non-null (both null: no statements and no identifier, in add_dti and
in the grant pipeline alike); within a run the grant pipeline resolves
pairs through the concatenation of the two URIs: an identical pair
reuses the interval found under its key, a missing key allocates a fresh
interval stored under the concatenated key, and two pairs resolve to
distinct intervals provided their concatenated keys differ and the
dictionary is injective; add_dti allocates a fresh interval on every
invocation. -/
theorem dtiConstructionAmended (st : IngestState) (a b : String)
    (u : String) (dtiD : Dict) (a2 b2 : String) (u2 : String) (n : Nat)
    (ha : a ≠ "") (hb : b ≠ "") :
    add_dti none none n = ([], none, n) ∧
    grantDtiStep none none st =
      some ((find_datetime_interval none none st.dtiD).2, [], st) ∧
    (lookupD st.dtiD (dtiKey (some a) (some b)) = some u →
      grantDtiStep (some a) (some b) st = some (some u, [], st)) ∧
    (lookupD st.dtiD (a ++ b) = none →
      grantDtiStep (some a) (some b) st =
        some (some (newUri st.counter),
          (make_dt_interval_rdf (some a) (some b) st.counter).1,
          ⟨st.dateD, insertD st.dtiD (a ++ b) (newUri st.counter),
           st.counter + 1⟩)) ∧
    ((∀ k1 k2 v, lookupD dtiD k1 = some v → lookupD dtiD k2 = some v →
        k1 = k2) →
      dtiKey (some a) (some b) ≠ dtiKey (some a2) (some b2) →
      find_datetime_interval (some a) (some b) dtiD = (true, some u) →
      find_datetime_interval (some a2) (some b2) dtiD = (true, some u2) →
      u ≠ u2) ∧
    (add_dti (some a) (some b) n).2.1 = some (newUri (n + 2)) := by
  refine ⟨rfl, ?_, ?_, ?_, ?_, ?_⟩
  · simp only [grantDtiStep, find_datetime_interval]
    cases lookupD st.dtiD (dtiKey none none) <;> simp
  · intro h
    have hk : dtiKey (some a) (some b) = a ++ b := by
      simp [dtiKey, ha, hb]
    simp [grantDtiStep, find_datetime_interval, h]
  · intro h
    have hk : dtiKey (some a) (some b) = a ++ b := by
      simp [dtiKey, ha, hb]
    simp [grantDtiStep, find_datetime_interval, hk, h,
      make_dt_interval_rdf]
  · intro hinj hne hf1 hf2
    have h1 : lookupD dtiD (dtiKey (some a) (some b)) = some u := by
      revert hf1
      unfold find_datetime_interval
      cases hl : lookupD dtiD (dtiKey (some a) (some b)) <;> simp
    have h2 : lookupD dtiD (dtiKey (some a2) (some b2)) = some u2 := by
      revert hf2
      unfold find_datetime_interval
      cases hl : lookupD dtiD (dtiKey (some a2) (some b2)) <;> simp
    intro huv
    subst huv
    exact hne (hinj _ _ u h1 h2)
  · simp [add_dti, add_dtv]

theorem dtiConstructionAmended_witness :
    ("k1" ≠ "" ∧ ("k1" ++ "k2" : String) = "k1k2" ∧
      lookupD [("k1k2", "u")] "k1k2" = some "u") ∧
    grantDtiStep (some "k1") (some "k2") ⟨[], [("k1k2", "u")], 4⟩ =
      some (some "u", [], ⟨[], [("k1k2", "u")], 4⟩) :=
  ⟨⟨by decide, rfl, rfl⟩,
   (dtiConstructionAmended ⟨[], [("k1k2", "u")], 4⟩ "k1" "k2" "u"
     [] "x" "y" "z" 0 (by decide) (by decide)).2.2.1 rfl⟩

/-! ## repair_phone_number (C10) -/

/-- The whitespace set of the Python str.strip method. -/
def pyWs : List Char := [' ', '\t', '\n', '\r', '\x0b', '\x0c']

/-- Python str.strip: drop leading and trailing whitespace. -/
def pyStrip (l : List Char) : List Char :=
  ((l.dropWhile (fun c => pyWs.contains c)).reverse.dropWhile
    (fun c => pyWs.contains c)).reverse

def digitChars : List Char :=
  ['0', '1', '2', '3', '4', '5', '6', '7', '8', '9']

/-- The digit extraction loops of repair_phone_number: keep the
characters that are in the explicit digit list. -/
def digitsOf (l : List Char) : List Char :=
  l.filter (fun c => digitChars.contains c)

def rfindAux : List Char → Char → Nat → Int → Int
  | [], _, _, best => best
  | x :: xs, c, i, best =>
    rfindAux xs c (i + 1) (if x = c then (i : Int) else best)

/-- Python str.rfind for a single character: the index of its last
occurrence, or -1. -/
def rfind (l : List Char) (c : Char) : Int := rfindAux l c 0 (-1)

/-- The normalization and digit extraction part of repair_phone_number
(vivopeople.py lines 32 to 75): ascii-encode dropping other characters,
lowercase, strip, strip one leading US country code ("+1 ", then "+1-",
then "(1)"), extract the digits, and when more than ten digits remain
pull off an extension after the last blank, else after the last x, else
past the tenth digit.  Returns the final digit list and the extension
digit list when one was pulled off. -/
def phoneDigitsExt (phone : String) : List Char × Option (List Char) :=
  let pt0 := (phone.data.filter (fun c => c.toNat ≤ 127)).map Char.toLower
  let pt1 := pyStrip pt0
  let pt2 := if pt1.take 3 = ['+', '1', ' '] then pt1.drop 3 else pt1
  let pt3 := if pt2.take 3 = ['+', '1', '-'] then pt2.drop 3 else pt2
  let pt := if pt3.take 3 = ['(', '1', ')'] then pt3.drop 3 else pt3
  let digits := digitsOf pt
  if digits.length > 10 then
    let i := rfind pt ' '
    if i > 0 then
      (digitsOf (pt.take (i.toNat + 1)),
       some (digitsOf (pt.drop (i.toNat + 1))))
    else
      let ix := rfind pt 'x'
      if ix > 0 then
        (digitsOf (pt.take (ix.toNat + 1)),
         some (digitsOf (pt.drop (ix.toNat + 1))))
      else (digits.take 10, some (digits.drop 10))
  else (digits, none)

/-- repair_phone_number (vivopeople.py lines 25 to 100): format seven
digit, ten digit and the two five digit UF shapes; anything else becomes
the empty string with the extension discarded.  The damaged-number
checks compare the first five characters of the original input with a
six character literal, exactly as the source does. -/
def repair_phone_number (phone : String) : String :=
  let de := phoneDigitsExt phone
  let digits := de.1
  let r : String × Option (List Char) :=
    if digits.length = 7 then
      if phone.take 5 = "352392" then ("", none)
      else if phone.take 5 = "352273" then ("", none)
      else ("(352) " ++ String.mk (digits.take 3) ++ "-" ++
        String.mk ((digits.drop 3).take 4), de.2)
    else if digits.length = 10 then
      ("(" ++ String.mk (digits.take 3) ++ ") " ++
       String.mk ((digits.drop 3).take 3) ++ "-" ++
       String.mk ((digits.drop 6).take 4), de.2)
    else if digits.length = 5 ∧ digits.head? = some '2' then
      ("(352) 392" ++ String.mk (digits.drop 1), de.2)
    else if digits.length = 5 ∧ digits.head? = some '3' then
      ("(352) 273" ++ String.mk (digits.drop 1), de.2)
    else ("", none)
  match r.2 with
  | some ext =>
    if ext.length > 0 then r.1 ++ " ext. " ++ String.mk ext else r.1
  | none => r.1

/-- C10: for every input string whose extracted digit sequence, after
country code stripping and extension pull-off, has a length other than
7, 10, or 5 with a leading digit 2 or 3, repair_phone_number returns the
empty string with no extension suffix appended. -/
theorem phoneRepairEmpty (phone : String)
    (h7 : (phoneDigitsExt phone).1.length ≠ 7)
    (h10 : (phoneDigitsExt phone).1.length ≠ 10)
    (h5 : ¬((phoneDigitsExt phone).1.length = 5 ∧
      ((phoneDigitsExt phone).1.head? = some '2' ∨
       (phoneDigitsExt phone).1.head? = some '3'))) :
    repair_phone_number phone = "" := by
  have h52 : ¬((phoneDigitsExt phone).1.length = 5 ∧
      (phoneDigitsExt phone).1.head? = some '2') :=
    fun hx => h5 ⟨hx.1, Or.inl hx.2⟩
  have h53 : ¬((phoneDigitsExt phone).1.length = 5 ∧
      (phoneDigitsExt phone).1.head? = some '3') :=
    fun hx => h5 ⟨hx.1, Or.inr hx.2⟩
  simp only [repair_phone_number]
  rw [if_neg h7, if_neg h10, if_neg h52, if_neg h53]

theorem phoneRepairEmpty_witness :
    ((phoneDigitsExt "123").1.length ≠ 7 ∧
     (phoneDigitsExt "123").1.length ≠ 10 ∧
     ¬((phoneDigitsExt "123").1.length = 5 ∧
       ((phoneDigitsExt "123").1.head? = some '2' ∨
        (phoneDigitsExt "123").1.head? = some '3'))) ∧
    repair_phone_number "123" = "" :=
  ⟨⟨by decide, by decide, by decide⟩,
   phoneRepairEmpty "123" (by decide) (by decide) (by decide)⟩

end Vivo
